import Mathlib

/-!
# GfBlundaCamera: camera parameters, field of view and projection matrices

A shallow embedding of `pxr/base/gf/blundaCamera.cpp`.

Conventions of the embedding.

* The `float` and `double` values of the program are elements of a linear
  ordered field `K` (rounding is not modelled); every function is generic in
  `K`, so it runs on `ℚ` and is reasoned about on `ℝ`.
* The C library functions `tan` and `atan` and the constant `M_PI` are not
  part of the sources; they are passed to the functions that use them in a
  `Libm` record.
* `GfMatrix4d::GetInverse` is not part of the sources; it is a parameter of
  `SetFromViewAndProjectionMatrix`.
* A member function that mutates the camera takes the camera as `self` and
  returns the new camera; `TF_WARN` diagnostics are returned as a list.
-/

namespace Pxr

/-- Lens model, `GfBlundaCamera::Projection`. -/
inductive GfBlundaCamera.Projection where
  | Perspective
  | Orthographic
deriving DecidableEq, Repr

/-- Direction a field of view or an orthographic size applies to,
`GfBlundaCamera::FOVDirection`. -/
inductive GfBlundaCamera.FOVDirection where
  | FOVHorizontal
  | FOVVertical
deriving DecidableEq, Repr

/-- A 4x4 matrix, indexed `m i j` like `m[i][j]` in the program. -/
abbrev GfMatrix4d (K : Type) := Fin 4 → Fin 4 → K

/-- A 4-vector (one clipping plane). -/
abbrev GfVec4f (K : Type) := Fin 4 → K

/-- An interval stored as its two ends, `GfRange1f(min, max)`. -/
structure GfRange1f (K : Type) where
  min : K
  max : K
deriving DecidableEq

/-- The data members of `GfBlundaCamera`. -/
structure GfBlundaCamera (K : Type) where
  _transform : GfMatrix4d K
  _projection : GfBlundaCamera.Projection
  _horizontalAperture : K
  _verticalAperture : K
  _horizontalApertureOffset : K
  _verticalApertureOffset : K
  _focalLength : K
  _clippingRange : GfRange1f K
  _clippingPlanes : List (GfVec4f K)
  _fStop : K
  _focusDistance : K
  _hohoho : K

namespace GfBlundaCamera

/-- The C library functions and the constant used by the camera math. -/
structure Libm (K : Type) where
  tan : K → K
  atan : K → K
  M_PI : K

/-- The value of the binary64 constant `M_PI` (the double nearest to pi),
as an exact fraction: 884279719003555 / 2^48. -/
def M_PI_binary64 : ℚ := 884279719003555 / 281474976710656

variable {K : Type} [LinearOrderedField K]

/-- `GfBlundaCamera::APERTURE_UNIT`. -/
def APERTURE_UNIT : K := 0.1

/-- `GfBlundaCamera::FOCAL_LENGTH_UNIT`. -/
def FOCAL_LENGTH_UNIT : K := 0.1

/-- `GfBlundaCamera::DEFAULT_HORIZONTAL_APERTURE`. -/
def DEFAULT_HORIZONTAL_APERTURE : K := 0.825 * 2.54 / APERTURE_UNIT

/-- `GfBlundaCamera::DEFAULT_VERTICAL_APERTURE`. -/
def DEFAULT_VERTICAL_APERTURE : K := 0.602 * 2.54 / APERTURE_UNIT

/-- Modelled from the spec: `GfDegreesToRadians` of `pxr/base/gf/math.h`
(absent from the sources), the conversion behind "fieldOfView/2 in radians":
degrees times `M_PI / 180`. -/
def GfDegreesToRadians (m : Libm K) (degrees : K) : K :=
  degrees * (m.M_PI / 180)

/-- Modelled from the spec: `GfRadiansToDegrees` of `pxr/base/gf/math.h`
(absent from the sources), the conversion behind "returns degrees":
radians times `180 / M_PI`. -/
def GfRadiansToDegrees (m : Libm K) (radians : K) : K :=
  radians * (180 / m.M_PI)

/-- Modelled from the spec: the default-constructed camera, whose default
arguments live in `pxr/base/gf/blundaCamera.h` (absent from the sources). The
spec gives the default apertures (35mm projector aperture) and the default of
the extra scalar (about 20.955, the default horizontal aperture); the other
fields take the defaults of the base camera: identity transform, perspective
projection, zero offsets, focal length 50, clipping range [1, 1000000], no
clipping planes, zero fStop and focus distance. -/
def defaultCamera : GfBlundaCamera K where
  _transform := fun i j => if i = j then 1 else 0
  _projection := Projection.Perspective
  _horizontalAperture := DEFAULT_HORIZONTAL_APERTURE
  _verticalAperture := DEFAULT_VERTICAL_APERTURE
  _horizontalApertureOffset := 0
  _verticalApertureOffset := 0
  _focalLength := 50
  _clippingRange := GfRange1f.mk 1 1000000
  _clippingPlanes := []
  _fStop := 0
  _focusDistance := 0
  _hohoho := DEFAULT_HORIZONTAL_APERTURE

/-- `GfBlundaCamera::SetPerspectiveFromAspectRatioAndFieldOfView`. -/
def SetPerspectiveFromAspectRatioAndFieldOfView (m : Libm K)
    (self : GfBlundaCamera K) (aspectRatio fieldOfView : K)
    (direction : FOVDirection) (horizontalAperture : K) : GfBlundaCamera K :=
  -- Perspective
  let c1 := { self with _projection := Projection.Perspective }
  -- Set the vertical and horizontal aperture to achieve the aspect ratio
  let c2 := { c1 with _horizontalAperture := horizontalAperture }
  let c3 := { c2 with _verticalAperture :=
    horizontalAperture / (if aspectRatio ≠ 0 then aspectRatio else 1) }
  -- Pick the right dimension based on the direction parameter
  let aperture :=
    if direction = FOVDirection.FOVHorizontal then c3._horizontalAperture
    else c3._verticalAperture
  -- Compute tangent for field of view
  let tanValue := m.tan (0.5 * GfDegreesToRadians m fieldOfView)
  if tanValue = 0 then
    -- To avoid division by zero, just set default value
    { c3 with _focalLength := 50 }
  else
    -- Do the math for the focal length.
    { c3 with _focalLength :=
      aperture * APERTURE_UNIT / (2 * tanValue) / FOCAL_LENGTH_UNIT }

/-- `GfBlundaCamera::GetFieldOfView`. -/
def GetFieldOfView (m : Libm K) (self : GfBlundaCamera K)
    (direction : FOVDirection) : K :=
  -- Pick the right aperture based on direction
  let aperture :=
    if direction = FOVDirection.FOVHorizontal then self._horizontalAperture
    else self._verticalAperture
  -- Do the math
  let fovRAD := 2 * m.atan
    ((aperture * APERTURE_UNIT) / (2 * self._focalLength * FOCAL_LENGTH_UNIT))
  GfRadiansToDegrees m fovRAD

/-- `GfBlundaCamera::SetOrthographicFromAspectRatioAndSize`. -/
def SetOrthographicFromAspectRatioAndSize (self : GfBlundaCamera K)
    (aspectRatio orthographicSize : K) (direction : FOVDirection) :
    GfBlundaCamera K :=
  -- Orthographic
  let c1 := { self with _projection := Projection.Orthographic }
  -- Not used for orthographic cameras, but set to sane values nonetheless
  let c2 := { c1 with _focalLength := 50 }
  -- Set horizontal and vertial aperture
  if direction = FOVDirection.FOVHorizontal then
    -- We are given the width, determine height by dividing by aspect ratio
    let c3 := { c2 with _horizontalAperture := orthographicSize / APERTURE_UNIT }
    if aspectRatio > 0 then
      { c3 with _verticalAperture := c3._horizontalAperture / aspectRatio }
    else
      { c3 with _verticalAperture := c3._horizontalAperture }
  else
    -- We are given the height, determine the width by multiplying
    let c3 := { c2 with _verticalAperture := orthographicSize / APERTURE_UNIT }
    { c3 with _horizontalAperture := c3._verticalAperture * aspectRatio }

/-- `GfBlundaCamera::SetFromViewAndProjectionMatrix`. The result is the new
camera and the `TF_WARN` messages emitted, in order. `GetInverse` stands for
`GfMatrix4d::GetInverse`. -/
def SetFromViewAndProjectionMatrix (GetInverse : GfMatrix4d K → GfMatrix4d K)
    (self : GfBlundaCamera K) (viewMatrix projMatrix : GfMatrix4d K)
    (focalLength : K) : GfBlundaCamera K × List String :=
  let c1 := { self with _transform := GetInverse viewMatrix }
  let c2 := { c1 with _focalLength := focalLength }
  if projMatrix 2 3 < -0.5 then
    -- Use !(a<b) rather than a>=b so that NaN is caught.
    let warnings :=
      if ¬ (|projMatrix 2 3 - (-1.0)| < 1e-6) then
        ["GfBlundaCamera: Given projection matrix does not appear to be valid perspective matrix."]
      else []
    let c3 := { c2 with _projection := Projection.Perspective }
    let apertureBase := 2.0 * focalLength * (FOCAL_LENGTH_UNIT / APERTURE_UNIT)
    let c4 := { c3 with _horizontalAperture := apertureBase / projMatrix 0 0 }
    let c5 := { c4 with _verticalAperture := apertureBase / projMatrix 1 1 }
    let c6 := { c5 with _horizontalApertureOffset :=
      0.5 * c5._horizontalAperture * projMatrix 2 0 }
    let c7 := { c6 with _verticalApertureOffset :=
      0.5 * c6._verticalAperture * projMatrix 2 1 }
    let clippingRange := GfRange1f.mk
      (projMatrix 3 2 / (projMatrix 2 2 - 1.0))
      (projMatrix 3 2 / (projMatrix 2 2 + 1.0))
    ({ c7 with _clippingRange := clippingRange }, warnings)
  else
    let warnings :=
      if ¬ (|projMatrix 2 3| < 1e-6) then
        ["GfBlundaCamera: Given projection matrix does not appear to be valid orthographic matrix."]
      else []
    let c3 := { c2 with _projection := Projection.Orthographic }
    let c4 := { c3 with _horizontalAperture :=
      (2.0 / APERTURE_UNIT) / projMatrix 0 0 }
    let c5 := { c4 with _verticalAperture :=
      (2.0 / APERTURE_UNIT) / projMatrix 1 1 }
    let c6 := { c5 with _horizontalApertureOffset :=
      -0.5 * c5._horizontalAperture * projMatrix 3 0 }
    let c7 := { c6 with _verticalApertureOffset :=
      -0.5 * c6._verticalAperture * projMatrix 3 1 }
    let nearMinusFarHalf := 1.0 / projMatrix 2 2
    let nearPlusFarHalf := nearMinusFarHalf * projMatrix 3 2
    let clippingRange := GfRange1f.mk
      (nearPlusFarHalf + nearMinusFarHalf)
      (nearPlusFarHalf - nearMinusFarHalf)
    ({ c7 with _clippingRange := clippingRange }, warnings)

/-- `GfBlundaCamera::GetAspectRatio`. -/
def GetAspectRatio (self : GfBlundaCamera K) : K :=
  if self._verticalAperture = 0 then 0
  else self._horizontalAperture / self._verticalAperture

/-- A division that reports a zero divisor instead of computing a quotient. -/
def checkedDiv (a b : K) : Option K :=
  if b = 0 then none else some (a / b)

/-- `GfBlundaCamera::GetAspectRatio` with every division of the source
checked: `none` exactly when some division that is executed has divisor 0. -/
def GetAspectRatioChecked (self : GfBlundaCamera K) : Option K :=
  if self._verticalAperture = 0 then some 0
  else checkedDiv self._horizontalAperture self._verticalAperture

/-- `GfBlundaCamera::SetPerspectiveFromAspectRatioAndFieldOfView` with every
division of the source checked: `none` exactly when some division that is
executed has divisor 0. -/
def SetPerspectiveFromAspectRatioAndFieldOfViewChecked (m : Libm K)
    (self : GfBlundaCamera K) (aspectRatio fieldOfView : K)
    (direction : FOVDirection) (horizontalAperture : K) :
    Option (GfBlundaCamera K) :=
  let c1 := { self with _projection := Projection.Perspective }
  let c2 := { c1 with _horizontalAperture := horizontalAperture }
  (checkedDiv horizontalAperture
      (if aspectRatio ≠ 0 then aspectRatio else 1)).bind fun v =>
  let c3 := { c2 with _verticalAperture := v }
  let aperture :=
    if direction = FOVDirection.FOVHorizontal then c3._horizontalAperture
    else c3._verticalAperture
  let tanValue := m.tan (0.5 * GfDegreesToRadians m fieldOfView)
  if tanValue = 0 then
    some { c3 with _focalLength := 50 }
  else
    (checkedDiv (aperture * APERTURE_UNIT) (2 * tanValue)).bind fun q =>
    (checkedDiv q FOCAL_LENGTH_UNIT).bind fun f =>
    some { c3 with _focalLength := f }

/-- The standard OpenGL perspective projection matrix of a camera with zero
aperture offsets, the forward formula the round trip is stated against. -/
def perspectiveMatrix (focalLength hAperture vAperture near far : K) :
    GfMatrix4d K :=
  fun i j =>
    if i = 0 ∧ j = 0 then
      2 * focalLength * FOCAL_LENGTH_UNIT / (hAperture * APERTURE_UNIT)
    else if i = 1 ∧ j = 1 then
      2 * focalLength * FOCAL_LENGTH_UNIT / (vAperture * APERTURE_UNIT)
    else if i = 2 ∧ j = 2 then -(far + near) / (far - near)
    else if i = 2 ∧ j = 3 then -1
    else if i = 3 ∧ j = 2 then -2 * far * near / (far - near)
    else 0

/-- The standard OpenGL orthographic projection matrix of a camera with zero
aperture offsets, the forward formula the round trip is stated against. -/
def orthographicMatrix (hAperture vAperture near far : K) : GfMatrix4d K :=
  fun i j =>
    if i = 0 ∧ j = 0 then 2 / (hAperture * APERTURE_UNIT)
    else if i = 1 ∧ j = 1 then 2 / (vAperture * APERTURE_UNIT)
    else if i = 2 ∧ j = 2 then -2 / (far - near)
    else if i = 3 ∧ j = 2 then -(far + near) / (far - near)
    else if i = 3 ∧ j = 3 then 1
    else 0

/-- A perspective projection matrix with lens shift, used as a concrete
input: rows `P[0]` to `P[3]`. -/
def shiftedPerspectiveMatrix : GfMatrix4d ℚ :=
  ![![2, 0, 0, 0], ![0, 4, 0, 0], ![1 / 2, 1 / 4, -3, -1], ![0, 0, -8, 0]]

/-- An orthographic projection matrix with lens shift, used as a concrete
input: rows `P[0]` to `P[3]`. -/
def shiftedOrthographicMatrix : GfMatrix4d ℚ :=
  ![![1 / 5, 0, 0, 0], ![0, 2 / 5, 0, 0], ![0, 0, -1 / 2, 0],
    ![1 / 2, -1 / 5, -3, 1]]

/-- The perspective matrix with lens shift whose entry `P[2][3]` is -0.7
instead of -1, used as a concrete input: a malformed matrix of the
perspective branch. -/
def malformedPerspectiveMatrix : GfMatrix4d ℚ :=
  ![![2, 0, 0, 0], ![0, 4, 0, 0], ![1 / 2, 1 / 4, -3, -7 / 10],
    ![0, 0, -8, 0]]

end GfBlundaCamera

/-- Modelled from the spec: `GfVec2d` of `pxr/base/gf/vec2d.h` (absent from
the sources), a pair of coordinates of the 2D window. -/
structure GfVec2d (K : Type) where
  x : K
  y : K
deriving DecidableEq

/-- Modelled from the spec: `GfRange2d` of `pxr/base/gf/range2d.h` (absent
from the sources), the "2D window bounds" of a frustum, stored as its minimum
and maximum corner. -/
structure GfRange2d (K : Type) where
  min : GfVec2d K
  max : GfVec2d K
deriving DecidableEq

/-- Projection-type tag of a frustum, `GfFrustum::ProjectionType`. -/
inductive GfFrustum.ProjectionType where
  | Orthographic
  | Perspective
deriving DecidableEq, Repr

/-- Modelled from the spec: `GfFrustum` of `pxr/base/gf/frustum.h` (absent
from the sources), "a frustum value combining: camera-to-world transform, 2D
window bounds, near/far clip interval, and projection-type tag"; the
constructor stores its four arguments. -/
structure GfFrustum (K : Type) where
  camToWorldXf : GfMatrix4d K
  window : GfRange2d K
  nearFar : GfRange1f K
  projectionType : GfFrustum.ProjectionType

/-- Modelled from the spec: the base camera type `GfCamera` of
`pxr/base/gf/camera.h` (absent from the sources), "the base camera type that
lacks that field": the eleven camera fields without the extra scalar, each
returned unchanged by its getter. Its projection enumeration has the same
enumerators as `GfBlundaCamera::Projection`. -/
structure GfCamera (K : Type) where
  GetTransform : GfMatrix4d K
  GetProjection : GfBlundaCamera.Projection
  GetHorizontalAperture : K
  GetVerticalAperture : K
  GetHorizontalApertureOffset : K
  GetVerticalApertureOffset : K
  GetFocalLength : K
  GetClippingRange : GfRange1f K
  GetClippingPlanes : List (GfVec4f K)
  GetFStop : K
  GetFocusDistance : K

namespace GfRange2d

variable {K : Type} [LinearOrderedField K]

/-- Modelled from the spec: `GfRange2d::operator+=`, "translates it by the
aperture offsets": the corners of the argument are added to the corners. -/
def add (self b : GfRange2d K) : GfRange2d K :=
  GfRange2d.mk
    (GfVec2d.mk (self.min.x + b.min.x) (self.min.y + b.min.y))
    (GfVec2d.mk (self.max.x + b.max.x) (self.max.y + b.max.y))

/-- Modelled from the spec: `GfRange2d::operator*=`, "scales the whole
window": both corners are multiplied by a positive factor; for a factor that
is not positive the library also exchanges the two corners. -/
def mul (self : GfRange2d K) (m : K) : GfRange2d K :=
  if m > 0 then
    GfRange2d.mk
      (GfVec2d.mk (self.min.x * m) (self.min.y * m))
      (GfVec2d.mk (self.max.x * m) (self.max.y * m))
  else
    GfRange2d.mk
      (GfVec2d.mk (self.max.x * m) (self.max.y * m))
      (GfVec2d.mk (self.min.x * m) (self.min.y * m))

/-- Modelled from the spec: `GfRange2d::operator/=`, "divides the window":
multiplication by the reciprocal of the divisor. -/
def div (self : GfRange2d K) (m : K) : GfRange2d K :=
  self.mul (1.0 / m)

end GfRange2d

namespace GfBlundaCamera

variable {K : Type} [LinearOrderedField K]

/-- The constructor `GfBlundaCamera::GfBlundaCamera`: every argument is
stored in its data member. -/
def construct (transform : GfMatrix4d K) (projection : Projection)
    (horizontalAperture verticalAperture : K)
    (horizontalApertureOffset verticalApertureOffset : K)
    (focalLength : K) (clippingRange : GfRange1f K)
    (clippingPlanes : List (GfVec4f K)) (fStop focusDistance hohoho : K) :
    GfBlundaCamera K where
  _transform := transform
  _projection := projection
  _horizontalAperture := horizontalAperture
  _verticalAperture := verticalAperture
  _horizontalApertureOffset := horizontalApertureOffset
  _verticalApertureOffset := verticalApertureOffset
  _focalLength := focalLength
  _clippingRange := clippingRange
  _clippingPlanes := clippingPlanes
  _fStop := fStop
  _focusDistance := focusDistance
  _hohoho := hohoho

/-- `GfBlundaCamera::SetTransform`. -/
def SetTransform (self : GfBlundaCamera K) (val : GfMatrix4d K) :
    GfBlundaCamera K :=
  { self with _transform := val }

/-- `GfBlundaCamera::SetProjection`. -/
def SetProjection (self : GfBlundaCamera K) (val : Projection) :
    GfBlundaCamera K :=
  { self with _projection := val }

/-- `GfBlundaCamera::SetHorizontalAperture`. -/
def SetHorizontalAperture (self : GfBlundaCamera K) (val : K) :
    GfBlundaCamera K :=
  { self with _horizontalAperture := val }

/-- `GfBlundaCamera::SetVerticalAperture`. -/
def SetVerticalAperture (self : GfBlundaCamera K) (val : K) :
    GfBlundaCamera K :=
  { self with _verticalAperture := val }

/-- `GfBlundaCamera::SetHorizontalApertureOffset`. -/
def SetHorizontalApertureOffset (self : GfBlundaCamera K) (val : K) :
    GfBlundaCamera K :=
  { self with _horizontalApertureOffset := val }

/-- `GfBlundaCamera::SetVerticalApertureOffset`. -/
def SetVerticalApertureOffset (self : GfBlundaCamera K) (val : K) :
    GfBlundaCamera K :=
  { self with _verticalApertureOffset := val }

/-- `GfBlundaCamera::SetFocalLength`. -/
def SetFocalLength (self : GfBlundaCamera K) (val : K) : GfBlundaCamera K :=
  { self with _focalLength := val }

/-- `GfBlundaCamera::SetClippingRange`. -/
def SetClippingRange (self : GfBlundaCamera K) (val : GfRange1f K) :
    GfBlundaCamera K :=
  { self with _clippingRange := val }

/-- `GfBlundaCamera::SetClippingPlanes`. -/
def SetClippingPlanes (self : GfBlundaCamera K) (val : List (GfVec4f K)) :
    GfBlundaCamera K :=
  { self with _clippingPlanes := val }

/-- `GfBlundaCamera::SetFStop`. -/
def SetFStop (self : GfBlundaCamera K) (val : K) : GfBlundaCamera K :=
  { self with _fStop := val }

/-- `GfBlundaCamera::SetFocusDistance`. -/
def SetFocusDistance (self : GfBlundaCamera K) (val : K) : GfBlundaCamera K :=
  { self with _focusDistance := val }

/-- `GfBlundaCamera::SetHohoho`. -/
def SetHohoho (self : GfBlundaCamera K) (val : K) : GfBlundaCamera K :=
  { self with _hohoho := val }

/-- `GfBlundaCamera::GetFrustum`. -/
def GetFrustum (self : GfBlundaCamera K) : GfFrustum K :=
  let max := GfVec2d.mk (self._horizontalAperture / 2)
    (self._verticalAperture / 2)
  let window0 := GfRange2d.mk (GfVec2d.mk (-max.x) (-max.y)) max
  -- Apply the aperture offset
  let offsetVec := GfVec2d.mk self._horizontalApertureOffset
    self._verticalApertureOffset
  let window1 := window0.add (GfRange2d.mk offsetVec offsetVec)
  -- Up to now, all computations were done in mm, convert to cm.
  let window2 := window1.mul APERTURE_UNIT
  let window3 :=
    if self._projection ≠ Projection.Orthographic ∧ self._focalLength ≠ 0 then
      window2.div (self._focalLength * FOCAL_LENGTH_UNIT)
    else window2
  let clippingRange := GfRange1f.mk self._clippingRange.min
    self._clippingRange.max
  let projection :=
    if self._projection = Projection.Orthographic then
      GfFrustum.ProjectionType.Orthographic
    else GfFrustum.ProjectionType.Perspective
  GfFrustum.mk self._transform window3 clippingRange projection

/-- `GfBlundaCamera::GetFrustum` with every division checked: `none` exactly
when some division that is executed has divisor 0. The divisions are the two
halvings of the apertures and the reciprocal inside `GfRange2d::operator/=`. -/
def GetFrustumChecked (self : GfBlundaCamera K) : Option (GfFrustum K) :=
  (checkedDiv self._horizontalAperture 2).bind fun hx =>
  (checkedDiv self._verticalAperture 2).bind fun hy =>
  let max := GfVec2d.mk hx hy
  let window0 := GfRange2d.mk (GfVec2d.mk (-max.x) (-max.y)) max
  let offsetVec := GfVec2d.mk self._horizontalApertureOffset
    self._verticalApertureOffset
  let window1 := window0.add (GfRange2d.mk offsetVec offsetVec)
  let window2 := window1.mul APERTURE_UNIT
  let clippingRange := GfRange1f.mk self._clippingRange.min
    self._clippingRange.max
  let projection :=
    if self._projection = Projection.Orthographic then
      GfFrustum.ProjectionType.Orthographic
    else GfFrustum.ProjectionType.Perspective
  if self._projection ≠ Projection.Orthographic ∧ self._focalLength ≠ 0 then
    (checkedDiv 1.0 (self._focalLength * FOCAL_LENGTH_UNIT)).bind fun r =>
    some (GfFrustum.mk self._transform (window2.mul r) clippingRange
      projection)
  else
    some (GfFrustum.mk self._transform window2 clippingRange projection)

/-- `GfBlundaCamera::operator==(const GfCamera&)`. -/
def operatorEqGfCamera (self : GfBlundaCamera K) (other : GfCamera K) : Bool :=
  decide (self._transform = other.GetTransform) &&
  decide (self._projection = other.GetProjection) &&
  decide (self._horizontalAperture = other.GetHorizontalAperture) &&
  decide (self._verticalAperture = other.GetVerticalAperture) &&
  decide (self._horizontalApertureOffset
    = other.GetHorizontalApertureOffset) &&
  decide (self._verticalApertureOffset = other.GetVerticalApertureOffset) &&
  decide (self._focalLength = other.GetFocalLength) &&
  decide (self._clippingRange = other.GetClippingRange) &&
  decide (self._clippingPlanes = other.GetClippingPlanes) &&
  decide (self._fStop = other.GetFStop) &&
  decide (self._focusDistance = other.GetFocusDistance)

/-- `GfBlundaCamera::operator==(const GfBlundaCamera&)`. -/
def operatorEq (self other : GfBlundaCamera K) : Bool :=
  decide (self._transform = other._transform) &&
  decide (self._projection = other._projection) &&
  decide (self._horizontalAperture = other._horizontalAperture) &&
  decide (self._verticalAperture = other._verticalAperture) &&
  decide (self._horizontalApertureOffset = other._horizontalApertureOffset) &&
  decide (self._verticalApertureOffset = other._verticalApertureOffset) &&
  decide (self._focalLength = other._focalLength) &&
  decide (self._clippingRange = other._clippingRange) &&
  decide (self._clippingPlanes = other._clippingPlanes) &&
  decide (self._fStop = other._fStop) &&
  decide (self._focusDistance = other._focusDistance) &&
  decide (self._hohoho = other._hohoho)

/-- `GfBlundaCamera::operator!=(const GfCamera&)`. -/
def operatorNeGfCamera (self : GfBlundaCamera K) (other : GfCamera K) : Bool :=
  !(operatorEqGfCamera self other)

/-- `GfBlundaCamera::operator!=(const GfBlundaCamera&)`. -/
def operatorNe (self other : GfBlundaCamera K) : Bool :=
  !(operatorEq self other)

/-- The base camera holding the eleven base fields of a camera. -/
def baseCamera (self : GfBlundaCamera K) : GfCamera K where
  GetTransform := self._transform
  GetProjection := self._projection
  GetHorizontalAperture := self._horizontalAperture
  GetVerticalAperture := self._verticalAperture
  GetHorizontalApertureOffset := self._horizontalApertureOffset
  GetVerticalApertureOffset := self._verticalApertureOffset
  GetFocalLength := self._focalLength
  GetClippingRange := self._clippingRange
  GetClippingPlanes := self._clippingPlanes
  GetFStop := self._fStop
  GetFocusDistance := self._focusDistance

end GfBlundaCamera

/-! ## The scene-description schema `UsdGeomBlundaCamera`

The host scene description is an external collaborator. A prim is modelled by
the state of its camera attributes and of its transform authoring; the
operations of `UsdGeomXformable`, the attribute writes `UsdAttribute::Set` and
`UsdGeomCamera::GetCamera` of the base schema are parameters. -/

/-- Modelled from the spec: the tokens of `UsdGeomTokens`
(`pxr/usd/usdGeom/tokens.h`, absent from the sources) used by the schema: the
projection is persisted "as a string token `perspective`/`orthographic`", and
each attribute is named after its field. -/
structure UsdGeomTokensType where
  perspective : String
  orthographic : String
  projection : String
  hohoho : String

/-- Modelled from the spec: the token values of `UsdGeomTokens`. -/
def UsdGeomTokens : UsdGeomTokensType where
  perspective := "perspective"
  orthographic := "orthographic"
  projection := "projection"
  hohoho := "hohoho"

/-- Modelled from the spec: a `UsdAttribute` of the host scene description
(absent from the sources). An attribute can be missing (`defined = false`),
and a defined attribute can be unreadable at a time (`value time = none`, the
case where `Get` returns false). -/
structure UsdAttribute (T V : Type) where
  defined : Bool
  value : T → Option V

/-- Modelled from the spec: `UsdAttribute::Set(value, time)` of the host scene
description (absent from the sources), by which fields are "written back as
individual named attributes": one operation for each value type that
`SetFromCamera` writes, returning the attribute after the call. The source
discards the success flag of `Set`, so whether a write takes effect is left to
the collaborator. -/
structure UsdAttributeSet (T K : Type) where
  SetToken : UsdAttribute T String → String → T → UsdAttribute T String
  SetFloat : UsdAttribute T K → K → T → UsdAttribute T K
  SetVec2f : UsdAttribute T (K × K) → K × K → T → UsdAttribute T (K × K)
  SetVec4fArray : UsdAttribute T (List (GfVec4f K)) → List (GfVec4f K) → T →
    UsdAttribute T (List (GfVec4f K))

/-- Modelled from the spec: the prim a `UsdGeomBlundaCamera` schema object
holds (absent from the sources): its path, the state `xform` of its transform
authoring (of an arbitrary type `X`), and its camera attributes. The clipping
range attribute is a 2-vector (min, max). -/
structure UsdPrim (T K X : Type) where
  path : String
  xform : X
  projection : UsdAttribute T String
  horizontalAperture : UsdAttribute T K
  verticalAperture : UsdAttribute T K
  horizontalApertureOffset : UsdAttribute T K
  verticalApertureOffset : UsdAttribute T K
  focalLength : UsdAttribute T K
  clippingRange : UsdAttribute T (K × K)
  clippingPlanes : UsdAttribute T (List (GfVec4f K))
  fStop : UsdAttribute T K
  focusDistance : UsdAttribute T K
  hohoho : UsdAttribute T K

/-- Modelled from the spec: the operations of `UsdGeomXformable` and
`GfMatrix4d` that `SetFromCamera` calls (absent from the sources).
`MakeMatrixXform` returns the transform-authoring state after the attempt to
replace the transform operations, and whether the returned operation is valid
(it is invalid when a stronger opinion governs the transform);
`xformOpSet` is `UsdGeomXformOp::Set`. -/
structure UsdGeomXformable (T K X : Type) where
  ComputeParentToWorldTransform : X → T → GfMatrix4d K
  GetInverse : GfMatrix4d K → GfMatrix4d K
  MakeMatrixXform : X → X × Bool
  xformOpSet : X → GfMatrix4d K → T → X

/-- Modelled from the spec: the product of two `GfMatrix4d`
(`GfMatrix4d::operator*`, absent from the sources), by which "the transform is
composed into a local (parent-relative) transform". -/
def GfMatrix4d.mul {K : Type} [LinearOrderedField K] (a b : GfMatrix4d K) :
    GfMatrix4d K :=
  fun i j => a i 0 * b 0 j + a i 1 * b 1 j + a i 2 * b 2 j + a i 3 * b 3 j

namespace UsdGeomBlundaCamera

open GfBlundaCamera

variable {T K X V : Type} [LinearOrderedField K]

/-- The helper `_ConcatenateAttributeNames`: the result starts empty, then
receives `left` and then `right` at its end. -/
def _ConcatenateAttributeNames (left right : List String) : List String :=
  let result : List String := []
  let result := result ++ left
  let result := result ++ right
  result

/-- `UsdGeomBlundaCamera::GetSchemaAttributeNames`. `inheritedNames` stands
for `UsdGeomCamera::GetSchemaAttributeNames(true)`. -/
def GetSchemaAttributeNames (inheritedNames : List String)
    (includeInherited : Bool) : List String :=
  let localNames := [UsdGeomTokens.hohoho]
  let allNames := _ConcatenateAttributeNames inheritedNames localNames
  if includeInherited then allNames else localNames

/-- The helper `_GetValue`: the value of an attribute at a time, or `none`
with a `TF_WARN` message when the attribute is missing or unreadable. `attr`
is `prim.GetAttribute(name)`. -/
def _GetValue (primPath : String) (attr : UsdAttribute T V) (name : String)
    (time : T) : Option V × List String :=
  if ¬ attr.defined then
    (none, [name ++ " attribute on prim " ++ primPath ++ " missing."])
  else
    match attr.value time with
    | none =>
      (none, ["Failed to extract value from attribute " ++ name ++ " at <"
        ++ primPath ++ "." ++ name ++ ">."])
    | some value => (some value, [])

/-- The helper `_Range1fToVec2f`. -/
def _Range1fToVec2f (range : GfRange1f K) : K × K :=
  (range.min, range.max)

/-- The helper `_ProjectionToToken`. The `default` case of the switch cannot
be reached with a value of the enumeration. -/
def _ProjectionToToken (projection : Projection) : String :=
  match projection with
  | Projection.Perspective => UsdGeomTokens.perspective
  | Projection.Orthographic => UsdGeomTokens.orthographic

/-- The helper `_TokenToProjection`, with the `TF_WARN` messages it emits. -/
def _TokenToProjection (token : String) : Projection × List String :=
  if token = UsdGeomTokens.orthographic then
    (Projection.Orthographic, [])
  else
    let warnings :=
      if token ≠ UsdGeomTokens.perspective then
        ["Unknown projection type " ++ token]
      else []
    (Projection.Perspective, warnings)

/-- The helper `_VectorVec4fToVtArray`: the array holds the elements of the
vector in order. -/
def _VectorVec4fToVtArray (vec : List (GfVec4f K)) : List (GfVec4f K) :=
  vec

/-- `UsdGeomBlundaCamera::GetCamera`, with the `TF_WARN` messages emitted by
this function and its helpers, in order. `baseGetCamera` stands for
`UsdGeomCamera::GetCamera`. -/
def GetCamera (baseGetCamera : UsdPrim T K X → T → GfCamera K)
    (self : UsdPrim T K X) (time : T) : GfBlundaCamera K × List String :=
  let baseCamera := baseGetCamera self time
  let camera : GfBlundaCamera K := defaultCamera
  let camera := camera.SetTransform baseCamera.GetTransform
  let camera := camera.SetHorizontalAperture baseCamera.GetHorizontalAperture
  let camera := camera.SetVerticalAperture baseCamera.GetVerticalAperture
  let camera := camera.SetHorizontalApertureOffset
    baseCamera.GetHorizontalApertureOffset
  let camera := camera.SetVerticalApertureOffset
    baseCamera.GetVerticalApertureOffset
  let camera := camera.SetFocalLength baseCamera.GetFocalLength
  let camera := camera.SetClippingRange baseCamera.GetClippingRange
  let camera := camera.SetClippingPlanes baseCamera.GetClippingPlanes
  let camera := camera.SetFStop baseCamera.GetFStop
  let camera := camera.SetFocusDistance baseCamera.GetFocusDistance
  let projection := _GetValue self.path self.projection
    UsdGeomTokens.projection time
  let (camera, warnings1) :=
    match projection.1 with
    | some token =>
      (camera.SetProjection (_TokenToProjection token).1,
        projection.2 ++ (_TokenToProjection token).2)
    | none => (camera, projection.2)
  let hohoho := _GetValue self.path self.hohoho UsdGeomTokens.hohoho time
  let camera :=
    match hohoho.1 with
    | some value => camera.SetHohoho value
    | none => camera
  (camera, warnings1 ++ hohoho.2)

/-- `UsdGeomBlundaCamera::SetFromCamera`: the prim after the call. `xf` and
`attr` stand for the operations of the scene description that the function
calls. -/
def SetFromCamera (xf : UsdGeomXformable T K X) (attr : UsdAttributeSet T K)
    (self : UsdPrim T K X) (camera : GfBlundaCamera K) (time : T) :
    UsdPrim T K X :=
  let parentToWorldInverse :=
    xf.GetInverse (xf.ComputeParentToWorldTransform self.xform time)
  let camMatrix := GfMatrix4d.mul camera._transform parentToWorldInverse
  let xformOp := xf.MakeMatrixXform self.xform
  let prim := { self with xform := xformOp.1 }
  if ¬ xformOp.2 then
    -- The returned xformOp may be invalid if there are xform op
    -- opinions in the composed layer stack stronger than that of
    -- the current edit target.
    prim
  else
    let prim := { prim with xform := xf.xformOpSet prim.xform camMatrix time }
    let prim := { prim with
      projection :=
        attr.SetToken prim.projection (_ProjectionToToken camera._projection)
          time }
    let prim := { prim with
      horizontalAperture :=
        attr.SetFloat prim.horizontalAperture camera._horizontalAperture time }
    let prim := { prim with
      verticalAperture :=
        attr.SetFloat prim.verticalAperture camera._verticalAperture time }
    let prim := { prim with
      horizontalApertureOffset :=
        attr.SetFloat prim.horizontalApertureOffset
          camera._horizontalApertureOffset time }
    let prim := { prim with
      verticalApertureOffset :=
        attr.SetFloat prim.verticalApertureOffset
          camera._verticalApertureOffset time }
    let prim := { prim with
      focalLength := attr.SetFloat prim.focalLength camera._focalLength time }
    let prim := { prim with
      clippingRange :=
        attr.SetVec2f prim.clippingRange
          (_Range1fToVec2f camera._clippingRange) time }
    let prim := { prim with
      clippingPlanes :=
        attr.SetVec4fArray prim.clippingPlanes
          (_VectorVec4fToVtArray camera._clippingPlanes) time }
    let prim := { prim with
      fStop := attr.SetFloat prim.fStop camera._fStop time }
    let prim := { prim with
      focusDistance :=
        attr.SetFloat prim.focusDistance camera._focusDistance time }
    { prim with hohoho := attr.SetFloat prim.hohoho camera._hohoho time }

/-- A write that takes effect only on an attribute that is defined, where it
makes the attribute read `value` at `time`. -/
def writeIfDefined {S W : Type} [DecidableEq S] (self : UsdAttribute S W)
    (value : W) (time : S) : UsdAttribute S W :=
  if self.defined then
    UsdAttribute.mk true (fun t => if t = time then some value else self.value t)
  else self

/-- An attribute-writing collaborator used as a concrete input: every write
takes effect only on an attribute that is defined. -/
def sampleAttributeSet : UsdAttributeSet ℕ ℚ where
  SetToken := writeIfDefined
  SetFloat := writeIfDefined
  SetVec2f := writeIfDefined
  SetVec4fArray := writeIfDefined

/-- A transform-authoring collaborator used as a concrete input: the state is
the flag "a stronger opinion governs the transform"; `MakeMatrixXform` returns
a valid operation exactly when the flag is off, and never changes it. -/
def flagXformable : UsdGeomXformable ℕ ℚ Bool where
  ComputeParentToWorldTransform := fun _ _ => fun i j => if i = j then 1 else 0
  GetInverse := fun m => m
  MakeMatrixXform := fun blocked => (blocked, !blocked)
  xformOpSet := fun blocked _ _ => blocked

/-- A prim used as a concrete input: every attribute is defined and has no
value yet, except `projection`, which reads "orthographic" at every time,
`focalLength`, which reads 35 at every time, and `hohoho`, which is missing;
`blocked` is the state of the transform authoring. -/
def samplePrim (blocked : Bool) : UsdPrim ℕ ℚ Bool where
  path := "/cam"
  xform := blocked
  projection := UsdAttribute.mk true (fun _ => some "orthographic")
  horizontalAperture := UsdAttribute.mk true (fun _ => none)
  verticalAperture := UsdAttribute.mk true (fun _ => none)
  horizontalApertureOffset := UsdAttribute.mk true (fun _ => none)
  verticalApertureOffset := UsdAttribute.mk true (fun _ => none)
  focalLength := UsdAttribute.mk true (fun _ => some 35)
  clippingRange := UsdAttribute.mk true (fun _ => none)
  clippingPlanes := UsdAttribute.mk true (fun _ => none)
  fStop := UsdAttribute.mk true (fun _ => none)
  focusDistance := UsdAttribute.mk true (fun _ => none)
  hohoho := UsdAttribute.mk false (fun _ => none)

end UsdGeomBlundaCamera

namespace GfBlundaCamera

variable {K : Type} [LinearOrderedField K]

/-! ## Field of view -/

/-- The pinhole formula undone: the quotient `GetFieldOfView` hands to `atan`
is the tangent the focal length was computed from. -/
theorem aperture_over_focal (a t : K) (ha : a ≠ 0) :
    a * 0.1 / (2 * (a * 0.1 / (2 * t) / 0.1) * 0.1) = t := by
  norm_num
  field_simp
  ring

/-- The half angle of a field of view strictly between 0 and 180 degrees lies
strictly between 0 and pi/2, for a conversion constant `p` in (0, pi]. -/
theorem half_angle_bounds (p fieldOfView : ℝ) (hp0 : 0 < p) (hp : p ≤ Real.pi)
    (hfov0 : 0 < fieldOfView) (hfov : fieldOfView < 180) :
    0 < 0.5 * (fieldOfView * (p / 180)) ∧
      0.5 * (fieldOfView * (p / 180)) < Real.pi / 2 := by
  refine ⟨by positivity, ?_⟩
  have h1 : fieldOfView * p < 180 * p := by nlinarith
  have h2 : 180 * p ≤ 180 * Real.pi := by nlinarith
  norm_num
  linarith

/-- C1. Field-of-view round trip in real arithmetic: for a field of view
strictly between 0 and 180 degrees, a non-zero aspect ratio, a non-zero
horizontal aperture and either direction,
`SetPerspectiveFromAspectRatioAndFieldOfView` followed by `GetFieldOfView` in
the same direction returns the field of view it was given. The conversion
constant `p` is any value in (0, pi], so pi itself and the binary64 `M_PI`. -/
theorem fieldOfView_roundtrip (p : ℝ) (hp0 : 0 < p) (hp : p ≤ Real.pi)
    (self : GfBlundaCamera ℝ)
    (aspectRatio fieldOfView horizontalAperture : ℝ) (direction : FOVDirection)
    (hfov0 : 0 < fieldOfView) (hfov : fieldOfView < 180)
    (ha : aspectRatio ≠ 0) (hh : horizontalAperture ≠ 0) :
    GetFieldOfView (Libm.mk Real.tan Real.arctan p)
      (SetPerspectiveFromAspectRatioAndFieldOfView
        (Libm.mk Real.tan Real.arctan p)
        self aspectRatio fieldOfView direction horizontalAperture) direction
      = fieldOfView := by
  obtain ⟨hθ0, hθ⟩ := half_angle_bounds p fieldOfView hp0 hp hfov0 hfov
  have htan : 0 < Real.tan (0.5 * (fieldOfView * (p / 180))) :=
    Real.tan_pos_of_pos_of_lt_pi_div_two hθ0 hθ
  have hat : Real.arctan (Real.tan (0.5 * (fieldOfView * (p / 180))))
      = 0.5 * (fieldOfView * (p / 180)) :=
    Real.arctan_tan (by linarith) hθ
  have hva : horizontalAperture / aspectRatio ≠ 0 := div_ne_zero hh ha
  cases direction <;>
  · simp only [GetFieldOfView, SetPerspectiveFromAspectRatioAndFieldOfView,
      GfDegreesToRadians, GfRadiansToDegrees, APERTURE_UNIT, FOCAL_LENGTH_UNIT,
      htan.ne', if_false, if_true, ha, ne_eq, not_false_eq_true, reduceCtorEq]
    rw [aperture_over_focal _ _ (by assumption), hat]
    field_simp
    ring

/-- C1 at a concrete input: aspect ratio 1.78, field of view 90 degrees in
the vertical direction, horizontal aperture 20.955, with pi as the constant. -/
theorem fieldOfView_roundtrip_witness :
    (0 : ℝ) < 90 ∧ (90 : ℝ) < 180 ∧ (1.78 : ℝ) ≠ 0 ∧ (20.955 : ℝ) ≠ 0 ∧
    GetFieldOfView (Libm.mk Real.tan Real.arctan Real.pi)
      (SetPerspectiveFromAspectRatioAndFieldOfView
        (Libm.mk Real.tan Real.arctan Real.pi)
        defaultCamera 1.78 90 FOVDirection.FOVVertical 20.955)
      FOVDirection.FOVVertical = 90 :=
  ⟨by norm_num, by norm_num, by norm_num, by norm_num,
    fieldOfView_roundtrip Real.pi Real.pi_pos le_rfl defaultCamera 1.78 90
      20.955 FOVDirection.FOVVertical (by norm_num) (by norm_num)
      (by norm_num) (by norm_num)⟩

/-! ## Projection matrix round trips -/

/-- C2. Perspective projection-matrix round trip: when `P` has the entries of
the standard OpenGL perspective matrix of a camera with focal length
`focalLength` (non-zero), apertures `hAperture` and `vAperture` (non-zero),
zero aperture offsets and clipping range `0 < near < far`,
`SetFromViewAndProjectionMatrix(view, P, focalLength)` sets the projection to
Perspective and recovers both apertures, zero offsets and `[near, far]`. -/
theorem perspective_matrix_roundtrip
    (GetInverse : GfMatrix4d K → GfMatrix4d K) (self : GfBlundaCamera K)
    (viewMatrix P : GfMatrix4d K)
    (focalLength hAperture vAperture near far : K)
    (hf : focalLength ≠ 0) (hh : hAperture ≠ 0) (hv : vAperture ≠ 0)
    (hn : 0 < near) (hnf : near < far)
    (h00 : P 0 0 =
      2 * focalLength * FOCAL_LENGTH_UNIT / (hAperture * APERTURE_UNIT))
    (h11 : P 1 1 =
      2 * focalLength * FOCAL_LENGTH_UNIT / (vAperture * APERTURE_UNIT))
    (h20 : P 2 0 = 0) (h21 : P 2 1 = 0)
    (h22 : P 2 2 = -(far + near) / (far - near))
    (h23 : P 2 3 = -1)
    (h32 : P 3 2 = -2 * far * near / (far - near)) :
    (SetFromViewAndProjectionMatrix GetInverse self viewMatrix P
        focalLength).1._projection = Projection.Perspective ∧
    (SetFromViewAndProjectionMatrix GetInverse self viewMatrix P
        focalLength).1._horizontalAperture = hAperture ∧
    (SetFromViewAndProjectionMatrix GetInverse self viewMatrix P
        focalLength).1._verticalAperture = vAperture ∧
    (SetFromViewAndProjectionMatrix GetInverse self viewMatrix P
        focalLength).1._horizontalApertureOffset = 0 ∧
    (SetFromViewAndProjectionMatrix GetInverse self viewMatrix P
        focalLength).1._verticalApertureOffset = 0 ∧
    (SetFromViewAndProjectionMatrix GetInverse self viewMatrix P
        focalLength).1._clippingRange = GfRange1f.mk near far := by
  have hfn : far - near ≠ 0 := sub_ne_zero.mpr hnf.ne'
  have hfar : far ≠ 0 := (hn.trans hnf).ne'
  have hbranch : P 2 3 < -0.5 := by rw [h23]; norm_num
  simp only [SetFromViewAndProjectionMatrix, hbranch, if_true, h00, h11, h20,
    h21, h22, h32, APERTURE_UNIT, FOCAL_LENGTH_UNIT, mul_zero, true_and]
  have hP00 : 2 * focalLength * (0.1 : K) / (hAperture * 0.1) ≠ 0 :=
    div_ne_zero (by norm_num [hf]) (by norm_num [hh])
  have hP11 : 2 * focalLength * (0.1 : K) / (vAperture * 0.1) ≠ 0 :=
    div_ne_zero (by norm_num [hf]) (by norm_num [hv])
  refine ⟨?_, ?_, ?_⟩
  · rw [div_eq_iff hP00]
    field_simp
    ring
  · rw [div_eq_iff hP11]
    field_simp
    ring
  · have e1 : -2 * far * near / (far - near)
        / (-(far + near) / (far - near) - 1.0) = near := by
      have : -(far + near) / (far - near) - 1.0 = -2 * far / (far - near) := by
        field_simp
        ring
      rw [this]
      field_simp
      ring
    have e2 : -2 * far * near / (far - near)
        / (-(far + near) / (far - near) + 1.0) = far := by
      have : -(far + near) / (far - near) + 1.0 = -2 * near / (far - near) := by
        field_simp
        ring
      rw [this]
      field_simp [hn.ne']
      ring
    rw [e1, e2]

/-- C2 at a concrete input: focal length 50, apertures 20.955 and 15.2908,
clipping range [1, 100], identity view matrix. -/
theorem perspective_matrix_roundtrip_witness :
    (50 : ℚ) ≠ 0 ∧ (20.955 : ℚ) ≠ 0 ∧ (15.2908 : ℚ) ≠ 0 ∧
    (0 : ℚ) < 1 ∧ (1 : ℚ) < 100 ∧
    (SetFromViewAndProjectionMatrix id defaultCamera defaultCamera._transform
      (perspectiveMatrix 50 20.955 15.2908 1 100) (50 : ℚ)).1._projection
        = Projection.Perspective ∧
    (SetFromViewAndProjectionMatrix id defaultCamera defaultCamera._transform
      (perspectiveMatrix 50 20.955 15.2908 1 100) (50 : ℚ)).1._horizontalAperture
        = 20.955 ∧
    (SetFromViewAndProjectionMatrix id defaultCamera defaultCamera._transform
      (perspectiveMatrix 50 20.955 15.2908 1 100) (50 : ℚ)).1._verticalAperture
        = 15.2908 ∧
    (SetFromViewAndProjectionMatrix id defaultCamera defaultCamera._transform
      (perspectiveMatrix 50 20.955 15.2908 1 100)
      (50 : ℚ)).1._horizontalApertureOffset = 0 ∧
    (SetFromViewAndProjectionMatrix id defaultCamera defaultCamera._transform
      (perspectiveMatrix 50 20.955 15.2908 1 100)
      (50 : ℚ)).1._verticalApertureOffset = 0 ∧
    (SetFromViewAndProjectionMatrix id defaultCamera defaultCamera._transform
      (perspectiveMatrix 50 20.955 15.2908 1 100) (50 : ℚ)).1._clippingRange
        = GfRange1f.mk 1 100 :=
  ⟨by norm_num, by norm_num, by norm_num, by norm_num, by norm_num,
    perspective_matrix_roundtrip id defaultCamera defaultCamera._transform
      (perspectiveMatrix 50 20.955 15.2908 1 100) 50 20.955 15.2908 1 100
      (by norm_num) (by norm_num) (by norm_num) (by norm_num) (by norm_num)
      (by simp [perspectiveMatrix]) (by simp [perspectiveMatrix])
      (by simp [perspectiveMatrix]) (by simp [perspectiveMatrix])
      (by simp [perspectiveMatrix]) (by simp [perspectiveMatrix])
      (by simp [perspectiveMatrix])⟩

/-- C3. Orthographic projection-matrix round trip: when `P` has the entries of
the standard OpenGL orthographic matrix of a camera with apertures `hAperture`
and `vAperture` (non-zero), zero aperture offsets and clipping range
`near < far`, `SetFromViewAndProjectionMatrix(view, P, f)` sets, for every
`f`, the projection to Orthographic and recovers both apertures, zero offsets
and `[near, far]`. -/
theorem orthographic_matrix_roundtrip
    (GetInverse : GfMatrix4d K → GfMatrix4d K) (self : GfBlundaCamera K)
    (viewMatrix P : GfMatrix4d K)
    (f hAperture vAperture near far : K)
    (hh : hAperture ≠ 0) (hv : vAperture ≠ 0) (hnf : near < far)
    (h00 : P 0 0 = 2 / (hAperture * APERTURE_UNIT))
    (h11 : P 1 1 = 2 / (vAperture * APERTURE_UNIT))
    (h22 : P 2 2 = -2 / (far - near))
    (h23 : P 2 3 = 0)
    (h30 : P 3 0 = 0) (h31 : P 3 1 = 0)
    (h32 : P 3 2 = -(far + near) / (far - near)) :
    (SetFromViewAndProjectionMatrix GetInverse self viewMatrix P
        f).1._projection = Projection.Orthographic ∧
    (SetFromViewAndProjectionMatrix GetInverse self viewMatrix P
        f).1._horizontalAperture = hAperture ∧
    (SetFromViewAndProjectionMatrix GetInverse self viewMatrix P
        f).1._verticalAperture = vAperture ∧
    (SetFromViewAndProjectionMatrix GetInverse self viewMatrix P
        f).1._horizontalApertureOffset = 0 ∧
    (SetFromViewAndProjectionMatrix GetInverse self viewMatrix P
        f).1._verticalApertureOffset = 0 ∧
    (SetFromViewAndProjectionMatrix GetInverse self viewMatrix P
        f).1._clippingRange = GfRange1f.mk near far := by
  have hfn : far - near ≠ 0 := sub_ne_zero.mpr hnf.ne'
  have hbranch : ¬ (P 2 3 < -0.5) := by rw [h23]; norm_num
  simp only [SetFromViewAndProjectionMatrix, hbranch, if_false, h00, h11, h22,
    h30, h31, h32, APERTURE_UNIT, FOCAL_LENGTH_UNIT, mul_zero, true_and]
  have hP00 : (2 : K) / (hAperture * 0.1) ≠ 0 :=
    div_ne_zero (by norm_num) (by norm_num [hh])
  have hP11 : (2 : K) / (vAperture * 0.1) ≠ 0 :=
    div_ne_zero (by norm_num) (by norm_num [hv])
  have hP22 : (-2 : K) / (far - near) ≠ 0 :=
    div_ne_zero (by norm_num) hfn
  refine ⟨?_, ?_, ?_⟩
  · rw [div_eq_iff hP00]
    field_simp
    ring
  · rw [div_eq_iff hP11]
    field_simp
    ring
  · have e0 : (1.0 : K) / (-2 / (far - near)) = -(far - near) / 2 := by
      rw [div_eq_iff hP22]
      field_simp
      norm_num
      ring
    have e1 : -(far - near) / 2 * (-(far + near) / (far - near))
        = (far + near) / 2 := by
      field_simp
      ring
    rw [e0, e1]
    congr 1 <;> ring

/-- C3 at a concrete input: apertures 100 and 50, clipping range [-5, 20],
focal length argument 35, identity view matrix. -/
theorem orthographic_matrix_roundtrip_witness :
    (100 : ℚ) ≠ 0 ∧ (50 : ℚ) ≠ 0 ∧ (-5 : ℚ) < 20 ∧
    (SetFromViewAndProjectionMatrix id defaultCamera defaultCamera._transform
      (orthographicMatrix 100 50 (-5) 20) (35 : ℚ)).1._projection
        = Projection.Orthographic ∧
    (SetFromViewAndProjectionMatrix id defaultCamera defaultCamera._transform
      (orthographicMatrix 100 50 (-5) 20) (35 : ℚ)).1._horizontalAperture
        = 100 ∧
    (SetFromViewAndProjectionMatrix id defaultCamera defaultCamera._transform
      (orthographicMatrix 100 50 (-5) 20) (35 : ℚ)).1._verticalAperture
        = 50 ∧
    (SetFromViewAndProjectionMatrix id defaultCamera defaultCamera._transform
      (orthographicMatrix 100 50 (-5) 20)
      (35 : ℚ)).1._horizontalApertureOffset = 0 ∧
    (SetFromViewAndProjectionMatrix id defaultCamera defaultCamera._transform
      (orthographicMatrix 100 50 (-5) 20)
      (35 : ℚ)).1._verticalApertureOffset = 0 ∧
    (SetFromViewAndProjectionMatrix id defaultCamera defaultCamera._transform
      (orthographicMatrix 100 50 (-5) 20) (35 : ℚ)).1._clippingRange
        = GfRange1f.mk (-5) 20 :=
  ⟨by norm_num, by norm_num, by norm_num,
    orthographic_matrix_roundtrip id defaultCamera defaultCamera._transform
      (orthographicMatrix 100 50 (-5) 20) 35 100 50 (-5) 20
      (by norm_num) (by norm_num) (by norm_num)
      (by simp [orthographicMatrix]) (by simp [orthographicMatrix])
      (by simp [orthographicMatrix]) (by simp [orthographicMatrix])
      (by simp [orthographicMatrix]) (by simp [orthographicMatrix])
      (by simp [orthographicMatrix])⟩

/-! ## Degenerate fields of view -/

/-- `SetPerspectiveFromAspectRatioAndFieldOfView` never executes a division by
zero: the checked function returns the camera the plain one computes. -/
theorem setPerspective_checked_eq (m : Libm K) (self : GfBlundaCamera K)
    (aspectRatio fieldOfView : K) (direction : FOVDirection)
    (horizontalAperture : K) :
    SetPerspectiveFromAspectRatioAndFieldOfViewChecked m self aspectRatio
        fieldOfView direction horizontalAperture
      = some (SetPerspectiveFromAspectRatioAndFieldOfView m self aspectRatio
        fieldOfView direction horizontalAperture) := by
  have hu : (0.1 : K) ≠ 0 := by norm_num
  have hd : (if aspectRatio ≠ 0 then aspectRatio else 1) ≠ 0 := by
    split_ifs with h
    · exact h
    · exact one_ne_zero
  unfold SetPerspectiveFromAspectRatioAndFieldOfViewChecked
    SetPerspectiveFromAspectRatioAndFieldOfView
  simp only [checkedDiv, hd, if_false, Option.some_bind]
  by_cases ht : m.tan (0.5 * GfDegreesToRadians m fieldOfView) = 0
  · simp only [ht, if_true]
  · have h2 : 2 * m.tan (0.5 * GfDegreesToRadians m fieldOfView) ≠ 0 :=
      mul_ne_zero two_ne_zero ht
    simp only [ht, h2, FOCAL_LENGTH_UNIT, hu, if_false, Option.some_bind]

/-- C4. Field of view 0: for every aspect ratio, direction and horizontal
aperture, the tangent of the half angle is 0, the guarded branch is taken and
the focal length is 50; no division by zero is executed (the checked function
returns the camera); projection and both apertures are the ones set for any
other field of view: Perspective, the given horizontal aperture, and that
aperture divided by the aspect ratio (by 1 when the aspect ratio is 0). -/
theorem fieldOfView_zero_focalLength (atan : ℝ → ℝ) (p : ℝ)
    (self : GfBlundaCamera ℝ) (aspectRatio horizontalAperture : ℝ)
    (direction : FOVDirection) :
    Real.tan (0.5 * GfDegreesToRadians (Libm.mk Real.tan atan p) 0) = 0 ∧
    SetPerspectiveFromAspectRatioAndFieldOfViewChecked (Libm.mk Real.tan atan p)
        self aspectRatio 0 direction horizontalAperture
      = some (SetPerspectiveFromAspectRatioAndFieldOfView
        (Libm.mk Real.tan atan p) self aspectRatio 0 direction
        horizontalAperture) ∧
    (SetPerspectiveFromAspectRatioAndFieldOfView (Libm.mk Real.tan atan p)
      self aspectRatio 0 direction horizontalAperture)._focalLength = 50 ∧
    (SetPerspectiveFromAspectRatioAndFieldOfView (Libm.mk Real.tan atan p)
      self aspectRatio 0 direction horizontalAperture)._projection
        = Projection.Perspective ∧
    (SetPerspectiveFromAspectRatioAndFieldOfView (Libm.mk Real.tan atan p)
      self aspectRatio 0 direction horizontalAperture)._horizontalAperture
        = horizontalAperture ∧
    (SetPerspectiveFromAspectRatioAndFieldOfView (Libm.mk Real.tan atan p)
      self aspectRatio 0 direction horizontalAperture)._verticalAperture
        = horizontalAperture / (if aspectRatio ≠ 0 then aspectRatio else 1) ∧
    ∀ fieldOfView : ℝ,
      (SetPerspectiveFromAspectRatioAndFieldOfView (Libm.mk Real.tan atan p)
        self aspectRatio fieldOfView direction horizontalAperture)._projection
        = (SetPerspectiveFromAspectRatioAndFieldOfView (Libm.mk Real.tan atan p)
          self aspectRatio 0 direction horizontalAperture)._projection ∧
      (SetPerspectiveFromAspectRatioAndFieldOfView (Libm.mk Real.tan atan p)
        self aspectRatio fieldOfView direction
        horizontalAperture)._horizontalAperture
        = (SetPerspectiveFromAspectRatioAndFieldOfView (Libm.mk Real.tan atan p)
          self aspectRatio 0 direction
          horizontalAperture)._horizontalAperture ∧
      (SetPerspectiveFromAspectRatioAndFieldOfView (Libm.mk Real.tan atan p)
        self aspectRatio fieldOfView direction
        horizontalAperture)._verticalAperture
        = (SetPerspectiveFromAspectRatioAndFieldOfView (Libm.mk Real.tan atan p)
          self aspectRatio 0 direction
          horizontalAperture)._verticalAperture := by
  have ht : Real.tan (0.5 * GfDegreesToRadians (Libm.mk Real.tan atan p) 0)
      = 0 := by
    simp [GfDegreesToRadians]
  refine ⟨ht, setPerspective_checked_eq _ _ _ _ _ _, ?_, ?_, ?_, ?_, ?_⟩
  · simp only [SetPerspectiveFromAspectRatioAndFieldOfView, ht, if_true]
  · simp only [SetPerspectiveFromAspectRatioAndFieldOfView, ht, if_true]
  · simp only [SetPerspectiveFromAspectRatioAndFieldOfView, ht, if_true]
  · simp only [SetPerspectiveFromAspectRatioAndFieldOfView, ht, if_true]
  · intro fieldOfView
    simp only [SetPerspectiveFromAspectRatioAndFieldOfView]
    refine ⟨?_, ?_, ?_⟩ <;> split_ifs <;> rfl

/-- The half angle of 180 degrees, converted with the binary64 `M_PI`, falls
short of pi/2 by a positive amount below 6.2e-17, so its tangent is finite and
exceeds 10^16. -/
theorem tan_half_M_PI_binary64 (atan : ℝ → ℝ) :
    (10 : ℝ) ^ 16 < Real.tan (0.5 * GfDegreesToRadians
      (Libm.mk Real.tan atan ((M_PI_binary64 : ℚ) : ℝ)) 180) := by
  have hM : ((M_PI_binary64 : ℚ) : ℝ) = 884279719003555 / 281474976710656 := by
    simp [M_PI_binary64]
  have hlo := Real.pi_gt_d20
  have hhi := Real.pi_lt_d20
  obtain ⟨δ, hδ⟩ : ∃ δ : ℝ, δ = Real.pi / 2 - ((M_PI_binary64 : ℚ) : ℝ) / 2 :=
    ⟨_, rfl⟩
  have hδ0 : 0 < δ := by
    rw [hδ, hM]
    norm_num at hlo ⊢
    linarith
  have hδ1 : δ < 62 / 10 ^ 18 := by
    rw [hδ, hM]
    norm_num at hhi ⊢
    linarith
  have harg : 0.5 * GfDegreesToRadians
      (Libm.mk Real.tan atan ((M_PI_binary64 : ℚ) : ℝ)) 180
        = Real.pi / 2 - δ := by
    simp only [GfDegreesToRadians, hδ]
    ring
  rw [harg, Real.tan_pi_div_two_sub]
  have hsin : Real.sin δ < δ := Real.sin_lt hδ0
  have hsin0 : 0 < Real.sin δ :=
    Real.sin_pos_of_pos_of_lt_pi hδ0 (by linarith [Real.pi_gt_three])
  have hcos : 1 - δ ^ 2 / 2 ≤ Real.cos δ := Real.one_sub_sq_div_two_le_cos
  have hcos1 : (99 / 100 : ℝ) < Real.cos δ := by nlinarith
  have hcos0 : 0 < Real.cos δ := by linarith
  have htan0 : 0 < Real.tan δ := by
    rw [Real.tan_eq_sin_div_cos]
    exact div_pos hsin0 hcos0
  have htan1 : Real.tan δ < 1 / 10 ^ 16 := by
    rw [Real.tan_eq_sin_div_cos, div_lt_iff₀ hcos0]
    nlinarith
  rw [← one_div, lt_div_iff₀ htan0]
  have : (10 : ℝ) ^ 16 * Real.tan δ < 10 ^ 16 * (1 / 10 ^ 16) :=
    mul_lt_mul_of_pos_left htan1 (by positivity)
  simpa using this

/-- A focal length computed from a tangent above 10^16 is at most the
aperture divided by 2 * 10^16. -/
theorem focalLength_of_large_tan (a t : ℝ) (ht : (10 : ℝ) ^ 16 < t) :
    |a * 0.1 / (2 * t) / 0.1| * (2 * 10 ^ 16) ≤ |a| := by
  have ht0 : 0 < t := lt_trans (by positivity) ht
  have e : a * 0.1 / (2 * t) / 0.1 = a / (2 * t) := by
    field_simp
    ring
  rw [e, abs_div, abs_of_pos (by positivity : (0 : ℝ) < 2 * t),
    div_mul_eq_mul_div, div_le_iff₀ (by positivity)]
  have := abs_nonneg a
  nlinarith

/-- The general focal-length formula gives 50 for exactly one aperture,
100 times the tangent. -/
theorem focalLength_eq_50_iff (a t : ℝ) (ht : 0 < t) :
    a * 0.1 / (2 * t) / 0.1 = 50 ↔ a = 100 * t := by
  have e : a * 0.1 / (2 * t) / 0.1 = a / (2 * t) := by
    field_simp
    ring
  rw [e, div_eq_iff (by positivity)]
  constructor <;> intro h <;> linarith

/-- The focal length a field of view of 180 degrees produces, with the
binary64 `M_PI`: the guard is not taken and the general formula applies. -/
theorem setPerspective_180 (atan : ℝ → ℝ) (self : GfBlundaCamera ℝ)
    (aspectRatio horizontalAperture : ℝ) (direction : FOVDirection) :
    (SetPerspectiveFromAspectRatioAndFieldOfView
      (Libm.mk Real.tan atan ((M_PI_binary64 : ℚ) : ℝ)) self aspectRatio 180
      direction horizontalAperture)._focalLength
      = (if direction = FOVDirection.FOVHorizontal then horizontalAperture
          else horizontalAperture /
            (if aspectRatio ≠ 0 then aspectRatio else 1))
        * APERTURE_UNIT
        / (2 * Real.tan (0.5 * GfDegreesToRadians
            (Libm.mk Real.tan atan ((M_PI_binary64 : ℚ) : ℝ)) 180))
        / FOCAL_LENGTH_UNIT := by
  have ht := tan_half_M_PI_binary64 atan
  have ht0 : Real.tan (0.5 * GfDegreesToRadians
      (Libm.mk Real.tan atan ((M_PI_binary64 : ℚ) : ℝ)) 180) ≠ 0 :=
    (lt_trans (by positivity) ht).ne'
  simp only [SetPerspectiveFromAspectRatioAndFieldOfView, ht0, if_false]

/-- C5, the claim refuted at a concrete input: with the binary64 `M_PI`,
aspect ratio 1, the horizontal direction and horizontal aperture 20.955, a
field of view of 180 degrees does not give the focal length 50. -/
theorem fieldOfView_180_focalLength_ne_50 :
    (SetPerspectiveFromAspectRatioAndFieldOfView
      (Libm.mk Real.tan Real.arctan ((M_PI_binary64 : ℚ) : ℝ)) defaultCamera 1
      180 FOVDirection.FOVHorizontal 20.955)._focalLength ≠ 50 := by
  intro h
  rw [setPerspective_180] at h
  have hb := focalLength_of_large_tan 20.955 _
    (tan_half_M_PI_binary64 Real.arctan)
  simp only [if_true, APERTURE_UNIT, FOCAL_LENGTH_UNIT] at h
  rw [h, abs_of_pos (by norm_num : (0 : ℝ) < 50),
    abs_of_pos (by norm_num : (0 : ℝ) < 20.955)] at hb
  norm_num at hb

/-- C5 as amended. With a field of view of 180 degrees and the binary64
`M_PI`, for every aspect ratio, direction and horizontal aperture: the tested
tangent exceeds 10^16 (it is not 0), the guard is not taken, the focal length
is aperture * APERTURE_UNIT / (2 * tanValue) / FOCAL_LENGTH_UNIT, and its
magnitude is at most the aperture's divided by 2 * 10^16; so the focal length
is 50 exactly when the aperture is 100 * tanValue, and it is not 50 for any
aperture of magnitude below 10^18. -/
theorem fieldOfView_180_focalLength (atan : ℝ → ℝ) (self : GfBlundaCamera ℝ)
    (aspectRatio horizontalAperture : ℝ) (direction : FOVDirection) :
    (10 : ℝ) ^ 16 < Real.tan (0.5 * GfDegreesToRadians
      (Libm.mk Real.tan atan ((M_PI_binary64 : ℚ) : ℝ)) 180) ∧
    (SetPerspectiveFromAspectRatioAndFieldOfView
      (Libm.mk Real.tan atan ((M_PI_binary64 : ℚ) : ℝ)) self aspectRatio 180
      direction horizontalAperture)._focalLength
      = (if direction = FOVDirection.FOVHorizontal then horizontalAperture
          else horizontalAperture /
            (if aspectRatio ≠ 0 then aspectRatio else 1))
        * APERTURE_UNIT
        / (2 * Real.tan (0.5 * GfDegreesToRadians
            (Libm.mk Real.tan atan ((M_PI_binary64 : ℚ) : ℝ)) 180))
        / FOCAL_LENGTH_UNIT ∧
    |(SetPerspectiveFromAspectRatioAndFieldOfView
      (Libm.mk Real.tan atan ((M_PI_binary64 : ℚ) : ℝ)) self aspectRatio 180
      direction horizontalAperture)._focalLength| * (2 * 10 ^ 16)
      ≤ |if direction = FOVDirection.FOVHorizontal then horizontalAperture
          else horizontalAperture /
            (if aspectRatio ≠ 0 then aspectRatio else 1)| ∧
    ((SetPerspectiveFromAspectRatioAndFieldOfView
      (Libm.mk Real.tan atan ((M_PI_binary64 : ℚ) : ℝ)) self aspectRatio 180
      direction horizontalAperture)._focalLength = 50 ↔
      (if direction = FOVDirection.FOVHorizontal then horizontalAperture
        else horizontalAperture /
          (if aspectRatio ≠ 0 then aspectRatio else 1))
        = 100 * Real.tan (0.5 * GfDegreesToRadians
            (Libm.mk Real.tan atan ((M_PI_binary64 : ℚ) : ℝ)) 180)) ∧
    (|if direction = FOVDirection.FOVHorizontal then horizontalAperture
        else horizontalAperture /
          (if aspectRatio ≠ 0 then aspectRatio else 1)| < 10 ^ 18 →
      (SetPerspectiveFromAspectRatioAndFieldOfView
        (Libm.mk Real.tan atan ((M_PI_binary64 : ℚ) : ℝ)) self aspectRatio 180
        direction horizontalAperture)._focalLength ≠ 50) := by
  have ht := tan_half_M_PI_binary64 atan
  have ht0 : (0 : ℝ) < Real.tan (0.5 * GfDegreesToRadians
      (Libm.mk Real.tan atan ((M_PI_binary64 : ℚ) : ℝ)) 180) :=
    lt_trans (by positivity) ht
  have hbound : |(SetPerspectiveFromAspectRatioAndFieldOfView
      (Libm.mk Real.tan atan ((M_PI_binary64 : ℚ) : ℝ)) self aspectRatio 180
      direction horizontalAperture)._focalLength| * (2 * 10 ^ 16)
      ≤ |if direction = FOVDirection.FOVHorizontal then horizontalAperture
          else horizontalAperture /
            (if aspectRatio ≠ 0 then aspectRatio else 1)| := by
    rw [setPerspective_180]
    simp only [APERTURE_UNIT, FOCAL_LENGTH_UNIT]
    exact focalLength_of_large_tan _ _ ht
  refine ⟨ht, setPerspective_180 _ _ _ _ _, hbound, ?_, ?_⟩
  · rw [setPerspective_180]
    simp only [APERTURE_UNIT, FOCAL_LENGTH_UNIT]
    exact focalLength_eq_50_iff _ _ ht0
  · intro hsmall h50
    rw [h50, abs_of_pos (by norm_num : (0 : ℝ) < 50)] at hbound
    linarith

/-- C5 as amended, at a concrete input: aspect ratio 2, the vertical
direction and horizontal aperture 36 give the aperture 18, of magnitude below
10^18, so the focal length at 180 degrees is not 50. -/
theorem fieldOfView_180_focalLength_witness :
    |(18 : ℝ)| < 10 ^ 18 ∧
    (SetPerspectiveFromAspectRatioAndFieldOfView
      (Libm.mk Real.tan Real.arctan ((M_PI_binary64 : ℚ) : ℝ)) defaultCamera 2
      180 FOVDirection.FOVVertical 36)._focalLength ≠ 50 := by
  have hsmall : |(18 : ℝ)| < 10 ^ 18 := by
    rw [abs_of_pos (by norm_num : (0 : ℝ) < 18)]
    norm_num
  refine ⟨hsmall, (fieldOfView_180_focalLength Real.arctan defaultCamera 2 36
    FOVDirection.FOVVertical).2.2.2.2 ?_⟩
  rw [if_neg (by decide), if_pos (by norm_num)]
  norm_num

/-! ## Aspect ratio and the two setters -/

/-- C6. `GetAspectRatio` returns horizontalAperture / verticalAperture when
the vertical aperture is not 0 and returns 0 when it is 0, for every
horizontal aperture; it never divides by zero (the checked function returns
the same value). -/
theorem getAspectRatio_spec (self : GfBlundaCamera K) :
    (self._verticalAperture ≠ 0 →
      GetAspectRatio self
        = self._horizontalAperture / self._verticalAperture) ∧
    (self._verticalAperture = 0 → GetAspectRatio self = 0) ∧
    GetAspectRatioChecked self = some (GetAspectRatio self) := by
  refine ⟨fun h => ?_, fun h => ?_, ?_⟩
  · simp only [GetAspectRatio, h, if_false]
  · simp only [GetAspectRatio, h, if_true]
  · by_cases h : self._verticalAperture = 0
    · simp only [GetAspectRatioChecked, GetAspectRatio, h, if_true]
    · simp only [GetAspectRatioChecked, GetAspectRatio, checkedDiv, h,
        if_false]

/-- C6 at two concrete cameras: apertures 16 and 9 give 16/9, and a vertical
aperture of 0 gives 0. -/
theorem getAspectRatio_spec_witness :
    GetAspectRatio ({ defaultCamera with
      _horizontalAperture := 16, _verticalAperture := 9 } : GfBlundaCamera ℚ)
        = 16 / 9 ∧
    GetAspectRatio ({ defaultCamera with
      _horizontalAperture := 16, _verticalAperture := 0 } : GfBlundaCamera ℚ)
        = 0 :=
  ⟨(getAspectRatio_spec _).1 (by norm_num),
    (getAspectRatio_spec _).2.1 rfl⟩

/-- C7. `SetPerspectiveFromAspectRatioAndFieldOfView` sets the projection to
Perspective, the horizontal aperture to the given value and the vertical
aperture to horizontalAperture / aspectRatio, an aspect ratio of 0 being
treated as 1; and when the tangent of the half angle is not 0 it sets
focalLength = aperture * APERTURE_UNIT / (2 * tan) / FOCAL_LENGTH_UNIT, with
the horizontal aperture for FOVHorizontal and the new vertical aperture
otherwise. -/
theorem setPerspective_spec (m : Libm K) (self : GfBlundaCamera K)
    (aspectRatio fieldOfView : K) (direction : FOVDirection)
    (horizontalAperture : K) :
    (SetPerspectiveFromAspectRatioAndFieldOfView m self aspectRatio fieldOfView
      direction horizontalAperture)._projection = Projection.Perspective ∧
    (SetPerspectiveFromAspectRatioAndFieldOfView m self aspectRatio fieldOfView
      direction horizontalAperture)._horizontalAperture
        = horizontalAperture ∧
    (aspectRatio ≠ 0 →
      (SetPerspectiveFromAspectRatioAndFieldOfView m self aspectRatio
        fieldOfView direction horizontalAperture)._verticalAperture
          = horizontalAperture / aspectRatio) ∧
    (aspectRatio = 0 →
      (SetPerspectiveFromAspectRatioAndFieldOfView m self aspectRatio
        fieldOfView direction horizontalAperture)._verticalAperture
          = horizontalAperture) ∧
    (m.tan (0.5 * GfDegreesToRadians m fieldOfView) ≠ 0 →
      (SetPerspectiveFromAspectRatioAndFieldOfView m self aspectRatio
        fieldOfView direction horizontalAperture)._focalLength
          = (if direction = FOVDirection.FOVHorizontal then horizontalAperture
              else (SetPerspectiveFromAspectRatioAndFieldOfView m self
                aspectRatio fieldOfView direction
                horizontalAperture)._verticalAperture)
            * APERTURE_UNIT
            / (2 * m.tan (0.5 * GfDegreesToRadians m fieldOfView))
            / FOCAL_LENGTH_UNIT) := by
  refine ⟨?_, ?_, fun h => ?_, fun h => ?_, fun h => ?_⟩
  · simp only [SetPerspectiveFromAspectRatioAndFieldOfView]
    split_ifs <;> rfl
  · simp only [SetPerspectiveFromAspectRatioAndFieldOfView]
    split_ifs <;> rfl
  · simp only [SetPerspectiveFromAspectRatioAndFieldOfView, h, ne_eq,
      not_false_eq_true, if_true]
    split_ifs <;> rfl
  · simp only [SetPerspectiveFromAspectRatioAndFieldOfView, h, ne_eq,
      not_true_eq_false, if_false, div_one]
    split_ifs <;> rfl
  · simp only [SetPerspectiveFromAspectRatioAndFieldOfView, h, if_false]

/-- The half angle of 90 degrees is pi/4, whose tangent is 1. -/
theorem tan_half_90 :
    Real.tan (0.5 * GfDegreesToRadians
      (Libm.mk Real.tan Real.arctan Real.pi) 90) = 1 := by
  have e : 0.5 * GfDegreesToRadians
      (Libm.mk Real.tan Real.arctan Real.pi) 90 = Real.pi / 4 := by
    simp only [GfDegreesToRadians]
    ring
  rw [e, Real.tan_pi_div_four]

/-- C7 at a concrete input: aspect ratio 2, field of view 90 degrees in the
vertical direction and horizontal aperture 10 give the vertical aperture 5 and
the focal length 5 * 0.1 / (2 * 1) / 0.1 = 2.5. -/
theorem setPerspective_spec_witness :
    (2 : ℝ) ≠ 0 ∧
    Real.tan (0.5 * GfDegreesToRadians
      (Libm.mk Real.tan Real.arctan Real.pi) 90) ≠ 0 ∧
    (SetPerspectiveFromAspectRatioAndFieldOfView
      (Libm.mk Real.tan Real.arctan Real.pi) defaultCamera 2 90
      FOVDirection.FOVVertical 10)._verticalAperture = 5 ∧
    (SetPerspectiveFromAspectRatioAndFieldOfView
      (Libm.mk Real.tan Real.arctan Real.pi) defaultCamera 2 90
      FOVDirection.FOVVertical 10)._focalLength = 2.5 := by
  have ht : Real.tan (0.5 * GfDegreesToRadians
      (Libm.mk Real.tan Real.arctan Real.pi) 90) ≠ 0 := by
    rw [tan_half_90]
    exact one_ne_zero
  have h := setPerspective_spec (Libm.mk Real.tan Real.arctan Real.pi)
    defaultCamera 2 90 FOVDirection.FOVVertical 10
  have hv := h.2.2.1 (by norm_num)
  have hf := h.2.2.2.2 ht
  refine ⟨by norm_num, ht, ?_, ?_⟩
  · rw [hv]
    norm_num
  · rw [hf, hv, if_neg (by decide)]
    dsimp only
    rw [tan_half_90]
    norm_num [APERTURE_UNIT, FOCAL_LENGTH_UNIT]

/-- C8. `SetOrthographicFromAspectRatioAndSize` sets the projection to
Orthographic and the focal length to 50; for FOVHorizontal the horizontal
aperture is size / APERTURE_UNIT and the vertical aperture is the horizontal
one divided by the aspect ratio when the aspect ratio is positive, the
horizontal one otherwise; for FOVVertical the vertical aperture is
size / APERTURE_UNIT and the horizontal aperture is the vertical one times the
aspect ratio. -/
theorem setOrthographic_spec (self : GfBlundaCamera K)
    (aspectRatio orthographicSize : K) (direction : FOVDirection) :
    (SetOrthographicFromAspectRatioAndSize self aspectRatio orthographicSize
      direction)._projection = Projection.Orthographic ∧
    (SetOrthographicFromAspectRatioAndSize self aspectRatio orthographicSize
      direction)._focalLength = 50 ∧
    (direction = FOVDirection.FOVHorizontal →
      (SetOrthographicFromAspectRatioAndSize self aspectRatio orthographicSize
        direction)._horizontalAperture = orthographicSize / APERTURE_UNIT ∧
      (aspectRatio > 0 →
        (SetOrthographicFromAspectRatioAndSize self aspectRatio
          orthographicSize direction)._verticalAperture
            = orthographicSize / APERTURE_UNIT / aspectRatio) ∧
      (¬ aspectRatio > 0 →
        (SetOrthographicFromAspectRatioAndSize self aspectRatio
          orthographicSize direction)._verticalAperture
            = orthographicSize / APERTURE_UNIT)) ∧
    (direction = FOVDirection.FOVVertical →
      (SetOrthographicFromAspectRatioAndSize self aspectRatio orthographicSize
        direction)._verticalAperture = orthographicSize / APERTURE_UNIT ∧
      (SetOrthographicFromAspectRatioAndSize self aspectRatio orthographicSize
        direction)._horizontalAperture
          = orthographicSize / APERTURE_UNIT * aspectRatio) := by
  refine ⟨?_, ?_, fun hd => ⟨?_, fun ha => ?_, fun ha => ?_⟩, fun hd => ?_⟩
  · simp only [SetOrthographicFromAspectRatioAndSize]
    split_ifs <;> rfl
  · simp only [SetOrthographicFromAspectRatioAndSize]
    split_ifs <;> rfl
  · simp only [SetOrthographicFromAspectRatioAndSize, hd, if_true]
    split_ifs <;> rfl
  · simp only [SetOrthographicFromAspectRatioAndSize, hd, ha, if_true]
  · simp only [SetOrthographicFromAspectRatioAndSize, hd, ha, if_true,
      if_false]
  · subst hd
    simp only [SetOrthographicFromAspectRatioAndSize]
    rw [if_neg (by decide)]
    exact ⟨rfl, rfl⟩

/-- C8 at the input of the specification: aspect ratio 1.78, size 10 and
FOVHorizontal give the horizontal aperture 100 and the vertical aperture
100 / 1.78. -/
theorem setOrthographic_spec_witness :
    (1.78 : ℚ) > 0 ∧
    (SetOrthographicFromAspectRatioAndSize (defaultCamera : GfBlundaCamera ℚ)
      1.78 10 FOVDirection.FOVHorizontal)._horizontalAperture = 100 ∧
    (SetOrthographicFromAspectRatioAndSize (defaultCamera : GfBlundaCamera ℚ)
      1.78 10 FOVDirection.FOVHorizontal)._verticalAperture = 100 / 1.78 := by
  have h := (setOrthographic_spec (defaultCamera : GfBlundaCamera ℚ) 1.78 10
    FOVDirection.FOVHorizontal).2.2.1 rfl
  have hv := h.2.1 (by norm_num)
  refine ⟨by norm_num, ?_, ?_⟩
  · rw [h.1]
    norm_num [APERTURE_UNIT]
  · rw [hv]
    norm_num [APERTURE_UNIT]

/-! ## The two branches of SetFromViewAndProjectionMatrix -/

/-- C9. Perspective branch: whenever `P[2][3] < -0.5`,
`SetFromViewAndProjectionMatrix(view, P, focalLength)` leaves the camera with
transform = inverse(view), the focal length of the argument, projection
Perspective, horizontalAperture = B / P[0][0] and verticalAperture =
B / P[1][1] for B = 2 * focalLength * (FOCAL_LENGTH_UNIT / APERTURE_UNIT),
horizontalApertureOffset = 0.5 * horizontalAperture * P[2][0],
verticalApertureOffset = 0.5 * verticalAperture * P[2][1] and clippingRange =
[P[3][2] / (P[2][2] - 1), P[3][2] / (P[2][2] + 1)]. -/
theorem setFromViewAndProjectionMatrix_perspective
    (GetInverse : GfMatrix4d K → GfMatrix4d K) (self : GfBlundaCamera K)
    (viewMatrix P : GfMatrix4d K) (focalLength : K)
    (hb : P 2 3 < -0.5) :
    (SetFromViewAndProjectionMatrix GetInverse self viewMatrix P
      focalLength).1._transform = GetInverse viewMatrix ∧
    (SetFromViewAndProjectionMatrix GetInverse self viewMatrix P
      focalLength).1._focalLength = focalLength ∧
    (SetFromViewAndProjectionMatrix GetInverse self viewMatrix P
      focalLength).1._projection = Projection.Perspective ∧
    (SetFromViewAndProjectionMatrix GetInverse self viewMatrix P
      focalLength).1._horizontalAperture
        = 2 * focalLength * (FOCAL_LENGTH_UNIT / APERTURE_UNIT) / P 0 0 ∧
    (SetFromViewAndProjectionMatrix GetInverse self viewMatrix P
      focalLength).1._verticalAperture
        = 2 * focalLength * (FOCAL_LENGTH_UNIT / APERTURE_UNIT) / P 1 1 ∧
    (SetFromViewAndProjectionMatrix GetInverse self viewMatrix P
      focalLength).1._horizontalApertureOffset
        = 0.5 * (SetFromViewAndProjectionMatrix GetInverse self viewMatrix P
            focalLength).1._horizontalAperture * P 2 0 ∧
    (SetFromViewAndProjectionMatrix GetInverse self viewMatrix P
      focalLength).1._verticalApertureOffset
        = 0.5 * (SetFromViewAndProjectionMatrix GetInverse self viewMatrix P
            focalLength).1._verticalAperture * P 2 1 ∧
    (SetFromViewAndProjectionMatrix GetInverse self viewMatrix P
      focalLength).1._clippingRange
        = GfRange1f.mk (P 3 2 / (P 2 2 - 1)) (P 3 2 / (P 2 2 + 1)) := by
  have e2 : (2.0 : K) = 2 := by norm_num
  have e1 : (1.0 : K) = 1 := by norm_num
  simp only [SetFromViewAndProjectionMatrix, hb, if_true, e1, e2, and_self]

/-- C9 at a concrete input: focal length 50 and a perspective matrix with
lens shift give apertures 50 and 25, offsets 12.5 and 3.125 and the clipping
range [2, 4]. -/
theorem setFromViewAndProjectionMatrix_perspective_witness :
    shiftedPerspectiveMatrix 2 3 < -0.5 ∧
    (SetFromViewAndProjectionMatrix id defaultCamera defaultCamera._transform
      shiftedPerspectiveMatrix 50).1._projection = Projection.Perspective ∧
    (SetFromViewAndProjectionMatrix id defaultCamera defaultCamera._transform
      shiftedPerspectiveMatrix 50).1._horizontalAperture = 50 ∧
    (SetFromViewAndProjectionMatrix id defaultCamera defaultCamera._transform
      shiftedPerspectiveMatrix 50).1._verticalAperture = 25 ∧
    (SetFromViewAndProjectionMatrix id defaultCamera defaultCamera._transform
      shiftedPerspectiveMatrix 50).1._horizontalApertureOffset = 12.5 ∧
    (SetFromViewAndProjectionMatrix id defaultCamera defaultCamera._transform
      shiftedPerspectiveMatrix 50).1._verticalApertureOffset = 3.125 ∧
    (SetFromViewAndProjectionMatrix id defaultCamera defaultCamera._transform
      shiftedPerspectiveMatrix 50).1._clippingRange = GfRange1f.mk 2 4 := by
  have hb : shiftedPerspectiveMatrix 2 3 < -0.5 := by
    norm_num [shiftedPerspectiveMatrix]
  obtain ⟨-, -, hp, hh, hv, hho, hvo, hc⟩ :=
    setFromViewAndProjectionMatrix_perspective id defaultCamera
      defaultCamera._transform shiftedPerspectiveMatrix 50 hb
  have h1 : (SetFromViewAndProjectionMatrix id defaultCamera
      defaultCamera._transform shiftedPerspectiveMatrix
      50).1._horizontalAperture = 50 := by
    rw [hh]
    norm_num [shiftedPerspectiveMatrix, APERTURE_UNIT, FOCAL_LENGTH_UNIT]
  have h2 : (SetFromViewAndProjectionMatrix id defaultCamera
      defaultCamera._transform shiftedPerspectiveMatrix
      50).1._verticalAperture = 25 := by
    rw [hv]
    norm_num [shiftedPerspectiveMatrix, APERTURE_UNIT, FOCAL_LENGTH_UNIT]
  refine ⟨hb, hp, h1, h2, ?_, ?_, ?_⟩
  · rw [hho, h1]
    norm_num [shiftedPerspectiveMatrix]
  · rw [hvo, h2]
    norm_num [shiftedPerspectiveMatrix]
  · rw [hc]
    norm_num [shiftedPerspectiveMatrix]

/-- C10. Orthographic branch: whenever `P[2][3]` is not less than -0.5,
`SetFromViewAndProjectionMatrix(view, P, focalLength)` leaves the camera with
transform = inverse(view), the focal length of the argument, projection
Orthographic, horizontalAperture = (2 / APERTURE_UNIT) / P[0][0],
verticalAperture = (2 / APERTURE_UNIT) / P[1][1], horizontalApertureOffset =
-0.5 * horizontalAperture * P[3][0], verticalApertureOffset =
-0.5 * verticalAperture * P[3][1] and clippingRange =
[s * P[3][2] + s, s * P[3][2] - s] for s = 1 / P[2][2]. -/
theorem setFromViewAndProjectionMatrix_orthographic
    (GetInverse : GfMatrix4d K → GfMatrix4d K) (self : GfBlundaCamera K)
    (viewMatrix P : GfMatrix4d K) (focalLength : K)
    (hb : ¬ (P 2 3 < -0.5)) :
    (SetFromViewAndProjectionMatrix GetInverse self viewMatrix P
      focalLength).1._transform = GetInverse viewMatrix ∧
    (SetFromViewAndProjectionMatrix GetInverse self viewMatrix P
      focalLength).1._focalLength = focalLength ∧
    (SetFromViewAndProjectionMatrix GetInverse self viewMatrix P
      focalLength).1._projection = Projection.Orthographic ∧
    (SetFromViewAndProjectionMatrix GetInverse self viewMatrix P
      focalLength).1._horizontalAperture = (2 / APERTURE_UNIT) / P 0 0 ∧
    (SetFromViewAndProjectionMatrix GetInverse self viewMatrix P
      focalLength).1._verticalAperture = (2 / APERTURE_UNIT) / P 1 1 ∧
    (SetFromViewAndProjectionMatrix GetInverse self viewMatrix P
      focalLength).1._horizontalApertureOffset
        = -0.5 * (SetFromViewAndProjectionMatrix GetInverse self viewMatrix P
            focalLength).1._horizontalAperture * P 3 0 ∧
    (SetFromViewAndProjectionMatrix GetInverse self viewMatrix P
      focalLength).1._verticalApertureOffset
        = -0.5 * (SetFromViewAndProjectionMatrix GetInverse self viewMatrix P
            focalLength).1._verticalAperture * P 3 1 ∧
    (SetFromViewAndProjectionMatrix GetInverse self viewMatrix P
      focalLength).1._clippingRange
        = GfRange1f.mk (1 / P 2 2 * P 3 2 + 1 / P 2 2)
            (1 / P 2 2 * P 3 2 - 1 / P 2 2) := by
  have e2 : (2.0 : K) = 2 := by norm_num
  have e1 : (1.0 : K) = 1 := by norm_num
  simp only [SetFromViewAndProjectionMatrix, hb, if_false, e1, e2, and_self]

/-- C10 at a concrete input: an orthographic matrix with lens shift gives
apertures 100 and 50, offsets -25 and 5 and the clipping range [4, 8]. -/
theorem setFromViewAndProjectionMatrix_orthographic_witness :
    ¬ (shiftedOrthographicMatrix 2 3 < -0.5) ∧
    (SetFromViewAndProjectionMatrix id defaultCamera defaultCamera._transform
      shiftedOrthographicMatrix 35).1._projection = Projection.Orthographic ∧
    (SetFromViewAndProjectionMatrix id defaultCamera defaultCamera._transform
      shiftedOrthographicMatrix 35).1._focalLength = 35 ∧
    (SetFromViewAndProjectionMatrix id defaultCamera defaultCamera._transform
      shiftedOrthographicMatrix 35).1._horizontalAperture = 100 ∧
    (SetFromViewAndProjectionMatrix id defaultCamera defaultCamera._transform
      shiftedOrthographicMatrix 35).1._verticalAperture = 50 ∧
    (SetFromViewAndProjectionMatrix id defaultCamera defaultCamera._transform
      shiftedOrthographicMatrix 35).1._horizontalApertureOffset = -25 ∧
    (SetFromViewAndProjectionMatrix id defaultCamera defaultCamera._transform
      shiftedOrthographicMatrix 35).1._verticalApertureOffset = 5 ∧
    (SetFromViewAndProjectionMatrix id defaultCamera defaultCamera._transform
      shiftedOrthographicMatrix 35).1._clippingRange = GfRange1f.mk 4 8 := by
  have hb : ¬ (shiftedOrthographicMatrix 2 3 < -0.5) := by
    norm_num [shiftedOrthographicMatrix]
  obtain ⟨-, hf, hp, hh, hv, hho, hvo, hc⟩ :=
    setFromViewAndProjectionMatrix_orthographic id defaultCamera
      defaultCamera._transform shiftedOrthographicMatrix 35 hb
  have h1 : (SetFromViewAndProjectionMatrix id defaultCamera
      defaultCamera._transform shiftedOrthographicMatrix
      35).1._horizontalAperture = 100 := by
    rw [hh]
    norm_num [shiftedOrthographicMatrix, APERTURE_UNIT]
  have h2 : (SetFromViewAndProjectionMatrix id defaultCamera
      defaultCamera._transform shiftedOrthographicMatrix
      35).1._verticalAperture = 50 := by
    rw [hv]
    norm_num [shiftedOrthographicMatrix, APERTURE_UNIT]
  refine ⟨hb, hp, hf, h1, h2, ?_, ?_, ?_⟩
  · rw [hho, h1]
    norm_num [shiftedOrthographicMatrix]
  · rw [hvo, h2]
    norm_num [shiftedOrthographicMatrix]
  · rw [hc]
    norm_num [shiftedOrthographicMatrix]

/-! ## The frustum -/

/-- `GetFrustum` never executes a division by zero: the checked function
returns the frustum the plain one computes, for every camera. -/
theorem getFrustum_checked_eq (self : GfBlundaCamera K) :
    GetFrustumChecked self = some (GetFrustum self) := by
  have h2 : (2 : K) ≠ 0 := two_ne_zero
  have hu : (0.1 : K) ≠ 0 := by norm_num
  unfold GetFrustumChecked GetFrustum
  simp only [checkedDiv, h2, if_false, Option.some_bind]
  by_cases hc : self._projection ≠ Projection.Orthographic ∧
      self._focalLength ≠ 0
  · have hm : self._focalLength * FOCAL_LENGTH_UNIT ≠ 0 :=
      mul_ne_zero hc.2 hu
    simp only [hc, hm, not_false_eq_true, and_self, if_true, if_false,
      Option.some_bind, GfRange2d.div, ne_eq]
  · simp only [hc, if_false]

/-- C11. Frustum window of a perspective camera with focalLength > 0: the
minimum corner is ((-horizontalAperture/2 + horizontalApertureOffset) * k,
(-verticalAperture/2 + verticalApertureOffset) * k) and the maximum corner is
((horizontalAperture/2 + horizontalApertureOffset) * k,
(verticalAperture/2 + verticalApertureOffset) * k), with
k = APERTURE_UNIT / (focalLength * FOCAL_LENGTH_UNIT). -/
theorem getFrustum_perspective_window (self : GfBlundaCamera K)
    (hp : self._projection = Projection.Perspective)
    (hf : 0 < self._focalLength) :
    (GetFrustum self).window.min = GfVec2d.mk
      ((-self._horizontalAperture / 2 + self._horizontalApertureOffset)
        * (APERTURE_UNIT / (self._focalLength * FOCAL_LENGTH_UNIT)))
      ((-self._verticalAperture / 2 + self._verticalApertureOffset)
        * (APERTURE_UNIT / (self._focalLength * FOCAL_LENGTH_UNIT))) ∧
    (GetFrustum self).window.max = GfVec2d.mk
      ((self._horizontalAperture / 2 + self._horizontalApertureOffset)
        * (APERTURE_UNIT / (self._focalLength * FOCAL_LENGTH_UNIT)))
      ((self._verticalAperture / 2 + self._verticalApertureOffset)
        * (APERTURE_UNIT / (self._focalLength * FOCAL_LENGTH_UNIT))) := by
  have hu : (0 : K) < 0.1 := by norm_num
  have hm : 0 < self._focalLength * (0.1 : K) := mul_pos hf hu
  have hr : (1.0 : K) / (self._focalLength * 0.1) > 0 := by
    apply div_pos _ hm
    norm_num
  have hc : self._projection ≠ Projection.Orthographic ∧
      self._focalLength ≠ 0 := ⟨by rw [hp]; decide, hf.ne'⟩
  simp only [GetFrustum, hc, not_false_eq_true, and_self, if_true,
    GfRange2d.div, GfRange2d.mul, GfRange2d.add, APERTURE_UNIT,
    FOCAL_LENGTH_UNIT, hu, hr, gt_iff_lt, ne_eq]
  refine ⟨?_, ?_⟩ <;> congr 1 <;> field_simp <;> ring

/-- C11 at the input of the specification: horizontalAperture 20.955,
verticalAperture 15.2908, focalLength 50 and zero offsets give the half-width
0.20955. -/
theorem getFrustum_perspective_window_witness :
    (0 : ℚ) < 50 ∧
    (GetFrustum (construct (fun i j => if i = j then 1 else 0)
      Projection.Perspective 20.955 15.2908 0 0 50 (GfRange1f.mk 1 1000000)
      [] 0 0 (20.955 : ℚ))).window.max.x = 0.20955 ∧
    (GetFrustum (construct (fun i j => if i = j then 1 else 0)
      Projection.Perspective 20.955 15.2908 0 0 50 (GfRange1f.mk 1 1000000)
      [] 0 0 (20.955 : ℚ))).window.min.x = -0.20955 := by
  have h := getFrustum_perspective_window
    (construct (fun i j => if i = j then 1 else 0)
      Projection.Perspective 20.955 15.2908 0 0 50 (GfRange1f.mk 1 1000000)
      [] 0 0 (20.955 : ℚ)) rfl (by norm_num [construct])
  refine ⟨by norm_num, ?_, ?_⟩
  · rw [h.2]
    norm_num [construct, APERTURE_UNIT, FOCAL_LENGTH_UNIT]
  · rw [h.1]
    norm_num [construct, APERTURE_UNIT, FOCAL_LENGTH_UNIT]

/-- C12. `GetFrustum` never divides by zero: for a perspective camera whose
focal length is 0 and for every orthographic camera, the window is the offset
aperture window scaled by APERTURE_UNIT only, with no division by
focalLength * FOCAL_LENGTH_UNIT; and the checked function returns the same
frustum, so no executed division has divisor 0. -/
theorem getFrustum_undivided_window (self : GfBlundaCamera K)
    (h : (self._projection = Projection.Perspective ∧ self._focalLength = 0) ∨
      self._projection = Projection.Orthographic) :
    (GetFrustum self).window.min = GfVec2d.mk
      ((-self._horizontalAperture / 2 + self._horizontalApertureOffset)
        * APERTURE_UNIT)
      ((-self._verticalAperture / 2 + self._verticalApertureOffset)
        * APERTURE_UNIT) ∧
    (GetFrustum self).window.max = GfVec2d.mk
      ((self._horizontalAperture / 2 + self._horizontalApertureOffset)
        * APERTURE_UNIT)
      ((self._verticalAperture / 2 + self._verticalApertureOffset)
        * APERTURE_UNIT) ∧
    GetFrustumChecked self = some (GetFrustum self) := by
  have hu : (0 : K) < 0.1 := by norm_num
  have hc : ¬ (self._projection ≠ Projection.Orthographic ∧
      self._focalLength ≠ 0) := by
    rcases h with ⟨-, h0⟩ | ho
    · exact fun hc => hc.2 h0
    · exact fun hc => hc.1 ho
  refine ⟨?_, ?_, getFrustum_checked_eq self⟩
  · simp only [GetFrustum, hc, if_false, GfRange2d.mul, GfRange2d.add,
      APERTURE_UNIT, hu, gt_iff_lt, if_true]
    congr 1 <;> ring
  · simp only [GetFrustum, hc, if_false, GfRange2d.mul, GfRange2d.add,
      APERTURE_UNIT, hu, gt_iff_lt, if_true]

/-- C12 at two concrete cameras: a perspective camera with focal length 0 and
an orthographic camera with focal length 50, both with apertures 20.955 and
15.2908 and zero offsets, have the half-width 20.955 / 2 * 0.1 = 1.04775. -/
theorem getFrustum_undivided_window_witness :
    (GetFrustum (construct (fun i j => if i = j then 1 else 0)
      Projection.Perspective 20.955 15.2908 0 0 0 (GfRange1f.mk 1 1000000)
      [] 0 0 (20.955 : ℚ))).window.max.x = 1.04775 ∧
    (GetFrustum (construct (fun i j => if i = j then 1 else 0)
      Projection.Orthographic 20.955 15.2908 0 0 50 (GfRange1f.mk 1 1000000)
      [] 0 0 (20.955 : ℚ))).window.max.x = 1.04775 := by
  have h1 := getFrustum_undivided_window
    (construct (fun i j => if i = j then 1 else 0)
      Projection.Perspective 20.955 15.2908 0 0 0 (GfRange1f.mk 1 1000000)
      [] 0 0 (20.955 : ℚ)) (Or.inl ⟨rfl, rfl⟩)
  have h2 := getFrustum_undivided_window
    (construct (fun i j => if i = j then 1 else 0)
      Projection.Orthographic 20.955 15.2908 0 0 50 (GfRange1f.mk 1 1000000)
      [] 0 0 (20.955 : ℚ)) (Or.inr rfl)
  refine ⟨?_, ?_⟩
  · rw [h1.2.1]
    norm_num [construct, APERTURE_UNIT]
  · rw [h2.2.1]
    norm_num [construct, APERTURE_UNIT]

/-! ## Equality -/

/-- C13. Strict equality is fieldwise: `a == b` (the `GfBlundaCamera`
overload) is true if and only if all twelve fields are equal; two cameras
constructed from identical arguments compare equal; two cameras that agree on
the eleven base fields and differ in hohoho compare unequal. -/
theorem operatorEq_fieldwise (a b : GfBlundaCamera K)
    (transform : GfMatrix4d K) (projection : Projection)
    (horizontalAperture verticalAperture : K)
    (horizontalApertureOffset verticalApertureOffset : K)
    (focalLength : K) (clippingRange : GfRange1f K)
    (clippingPlanes : List (GfVec4f K)) (fStop focusDistance hohoho : K) :
    (operatorEq a b = true ↔
      a._transform = b._transform ∧
      a._projection = b._projection ∧
      a._horizontalAperture = b._horizontalAperture ∧
      a._verticalAperture = b._verticalAperture ∧
      a._horizontalApertureOffset = b._horizontalApertureOffset ∧
      a._verticalApertureOffset = b._verticalApertureOffset ∧
      a._focalLength = b._focalLength ∧
      a._clippingRange = b._clippingRange ∧
      a._clippingPlanes = b._clippingPlanes ∧
      a._fStop = b._fStop ∧
      a._focusDistance = b._focusDistance ∧
      a._hohoho = b._hohoho) ∧
    operatorEq
      (construct transform projection horizontalAperture verticalAperture
        horizontalApertureOffset verticalApertureOffset focalLength
        clippingRange clippingPlanes fStop focusDistance hohoho)
      (construct transform projection horizontalAperture verticalAperture
        horizontalApertureOffset verticalApertureOffset focalLength
        clippingRange clippingPlanes fStop focusDistance hohoho) = true ∧
    (a._transform = b._transform ∧
      a._projection = b._projection ∧
      a._horizontalAperture = b._horizontalAperture ∧
      a._verticalAperture = b._verticalAperture ∧
      a._horizontalApertureOffset = b._horizontalApertureOffset ∧
      a._verticalApertureOffset = b._verticalApertureOffset ∧
      a._focalLength = b._focalLength ∧
      a._clippingRange = b._clippingRange ∧
      a._clippingPlanes = b._clippingPlanes ∧
      a._fStop = b._fStop ∧
      a._focusDistance = b._focusDistance ∧
      a._hohoho ≠ b._hohoho →
        operatorEq a b = false ∧ operatorNe a b = true) := by
  have hiff : ∀ c d : GfBlundaCamera K, operatorEq c d = true ↔
      c._transform = d._transform ∧
      c._projection = d._projection ∧
      c._horizontalAperture = d._horizontalAperture ∧
      c._verticalAperture = d._verticalAperture ∧
      c._horizontalApertureOffset = d._horizontalApertureOffset ∧
      c._verticalApertureOffset = d._verticalApertureOffset ∧
      c._focalLength = d._focalLength ∧
      c._clippingRange = d._clippingRange ∧
      c._clippingPlanes = d._clippingPlanes ∧
      c._fStop = d._fStop ∧
      c._focusDistance = d._focusDistance ∧
      c._hohoho = d._hohoho := by
    intro c d
    simp only [operatorEq, Bool.and_eq_true, decide_eq_true_eq, and_assoc]
  refine ⟨hiff a b, ?_, ?_⟩
  · rw [hiff]
    exact ⟨rfl, rfl, rfl, rfl, rfl, rfl, rfl, rfl, rfl, rfl, rfl, rfl⟩
  · intro h
    have hne : operatorEq a b = false := by
      rw [← Bool.not_eq_true, hiff]
      intro h'
      exact h.2.2.2.2.2.2.2.2.2.2.2 h'.2.2.2.2.2.2.2.2.2.2.2
    exact ⟨hne, by simp only [operatorNe, hne, Bool.not_false]⟩

/-- C13 at concrete cameras: the default camera and a copy whose hohoho is 3
instead of 20.955 compare unequal, and the default camera equals itself. -/
theorem operatorEq_fieldwise_witness :
    operatorEq (defaultCamera : GfBlundaCamera ℚ)
      (SetHohoho defaultCamera 3) = false ∧
    operatorEq (defaultCamera : GfBlundaCamera ℚ) defaultCamera = true := by
  have h := operatorEq_fieldwise (defaultCamera : GfBlundaCamera ℚ)
    (SetHohoho defaultCamera 3) (fun i j => if i = j then 1 else 0)
    Projection.Perspective 0 0 0 0 0 (GfRange1f.mk 0 0) [] 0 0 0
  have h' := operatorEq_fieldwise (defaultCamera : GfBlundaCamera ℚ)
    defaultCamera (fun i j => if i = j then 1 else 0)
    Projection.Perspective 0 0 0 0 0 (GfRange1f.mk 0 0) [] 0 0 0
  refine ⟨(h.2.2 ⟨rfl, rfl, rfl, rfl, rfl, rfl, rfl, rfl, rfl, rfl, rfl, ?_⟩).1,
    h'.1.mpr ⟨rfl, rfl, rfl, rfl, rfl, rfl, rfl, rfl, rfl, rfl, rfl, rfl⟩⟩
  norm_num [SetHohoho, defaultCamera, DEFAULT_HORIZONTAL_APERTURE,
    APERTURE_UNIT]

/-- C14. Base-compatible equality ignores the extra scalar: `c == b` (the
`GfCamera` overload) is true if and only if the eleven base fields are equal;
the result is unchanged by `SetHohoho(x)` on `c`; and a camera compares equal
to the base camera holding its own eleven base fields. -/
theorem operatorEqGfCamera_fieldwise (c : GfBlundaCamera K) (b : GfCamera K)
    (x : K) :
    (operatorEqGfCamera c b = true ↔
      c._transform = b.GetTransform ∧
      c._projection = b.GetProjection ∧
      c._horizontalAperture = b.GetHorizontalAperture ∧
      c._verticalAperture = b.GetVerticalAperture ∧
      c._horizontalApertureOffset = b.GetHorizontalApertureOffset ∧
      c._verticalApertureOffset = b.GetVerticalApertureOffset ∧
      c._focalLength = b.GetFocalLength ∧
      c._clippingRange = b.GetClippingRange ∧
      c._clippingPlanes = b.GetClippingPlanes ∧
      c._fStop = b.GetFStop ∧
      c._focusDistance = b.GetFocusDistance) ∧
    operatorEqGfCamera (SetHohoho c x) b = operatorEqGfCamera c b ∧
    operatorEqGfCamera c (baseCamera c) = true ∧
    operatorEqGfCamera (SetHohoho c x) (baseCamera c) = true := by
  have hself : operatorEqGfCamera c (baseCamera c) = true := by
    simp only [operatorEqGfCamera, baseCamera, decide_True, Bool.and_self]
  refine ⟨?_, rfl, hself, hself⟩
  simp only [operatorEqGfCamera, Bool.and_eq_true, decide_eq_true_eq,
    and_assoc]

/-! ## Warnings of SetFromViewAndProjectionMatrix -/

/-- C18. `SetFromViewAndProjectionMatrix` is total and warns exactly on a
malformed matrix: a warning is emitted if and only if, in the perspective
branch (`P[2][3] < -0.5`), `|P[2][3] - (-1)|` is not less than 1e-6, or, in
the orthographic branch, `|P[2][3]|` is not less than 1e-6; at most one
warning is emitted; the fields written are those of the branch chosen by
`P[2][3] < -0.5`, given by formulas in (view, P, focalLength) that do not
mention the warning; in particular two matrices that differ only in entry
`[2][3]` and choose the same branch give the same camera. -/
theorem setFromViewAndProjectionMatrix_warnings
    (GetInverse : GfMatrix4d K → GfMatrix4d K) (self : GfBlundaCamera K)
    (viewMatrix P Q : GfMatrix4d K) (focalLength : K) :
    ((SetFromViewAndProjectionMatrix GetInverse self viewMatrix P
        focalLength).2 ≠ [] ↔
      (P 2 3 < -0.5 ∧ ¬ (|P 2 3 - (-1)| < 1e-6)) ∨
      (¬ (P 2 3 < -0.5) ∧ ¬ (|P 2 3| < 1e-6))) ∧
    (SetFromViewAndProjectionMatrix GetInverse self viewMatrix P
      focalLength).2.length ≤ 1 ∧
    (P 2 3 < -0.5 →
      (SetFromViewAndProjectionMatrix GetInverse self viewMatrix P
        focalLength).1 =
      { self with
        _transform := GetInverse viewMatrix
        _focalLength := focalLength
        _projection := Projection.Perspective
        _horizontalAperture :=
          2 * focalLength * (FOCAL_LENGTH_UNIT / APERTURE_UNIT) / P 0 0
        _verticalAperture :=
          2 * focalLength * (FOCAL_LENGTH_UNIT / APERTURE_UNIT) / P 1 1
        _horizontalApertureOffset :=
          0.5 * (2 * focalLength * (FOCAL_LENGTH_UNIT / APERTURE_UNIT) / P 0 0)
            * P 2 0
        _verticalApertureOffset :=
          0.5 * (2 * focalLength * (FOCAL_LENGTH_UNIT / APERTURE_UNIT) / P 1 1)
            * P 2 1
        _clippingRange :=
          GfRange1f.mk (P 3 2 / (P 2 2 - 1)) (P 3 2 / (P 2 2 + 1)) }) ∧
    (¬ (P 2 3 < -0.5) →
      (SetFromViewAndProjectionMatrix GetInverse self viewMatrix P
        focalLength).1 =
      { self with
        _transform := GetInverse viewMatrix
        _focalLength := focalLength
        _projection := Projection.Orthographic
        _horizontalAperture := (2 / APERTURE_UNIT) / P 0 0
        _verticalAperture := (2 / APERTURE_UNIT) / P 1 1
        _horizontalApertureOffset :=
          -0.5 * ((2 / APERTURE_UNIT) / P 0 0) * P 3 0
        _verticalApertureOffset :=
          -0.5 * ((2 / APERTURE_UNIT) / P 1 1) * P 3 1
        _clippingRange :=
          GfRange1f.mk (1 / P 2 2 * P 3 2 + 1 / P 2 2)
            (1 / P 2 2 * P 3 2 - 1 / P 2 2) }) ∧
    ((∀ i j, ¬ (i = 2 ∧ j = 3) → Q i j = P i j) →
      (Q 2 3 < -0.5 ↔ P 2 3 < -0.5) →
      (SetFromViewAndProjectionMatrix GetInverse self viewMatrix Q
        focalLength).1 =
      (SetFromViewAndProjectionMatrix GetInverse self viewMatrix P
        focalLength).1) := by
  have e2 : (2.0 : K) = 2 := by norm_num
  have e1 : (1.0 : K) = 1 := by norm_num
  refine ⟨?_, ?_, ?_, ?_, ?_⟩
  · by_cases hb : P 2 3 < -0.5
    · by_cases hw : |P 2 3 - (-1)| < 1e-6
      · simp [SetFromViewAndProjectionMatrix, hb, hw, e1]
      · simp [SetFromViewAndProjectionMatrix, hb, hw, e1]
    · by_cases hw : |P 2 3| < 1e-6
      · simp [SetFromViewAndProjectionMatrix, hb, hw]
      · simp [SetFromViewAndProjectionMatrix, hb, hw]
  · simp only [SetFromViewAndProjectionMatrix]
    split_ifs <;> simp
  · intro hb
    simp only [SetFromViewAndProjectionMatrix, hb, if_true, e1, e2]
  · intro hb
    simp only [SetFromViewAndProjectionMatrix, hb, if_false, e1, e2]
  · intro hQ hbr
    have q00 := hQ 0 0 (by decide)
    have q11 := hQ 1 1 (by decide)
    have q20 := hQ 2 0 (by decide)
    have q21 := hQ 2 1 (by decide)
    have q22 := hQ 2 2 (by decide)
    have q30 := hQ 3 0 (by decide)
    have q31 := hQ 3 1 (by decide)
    have q32 := hQ 3 2 (by decide)
    by_cases hb : P 2 3 < -0.5
    · simp only [SetFromViewAndProjectionMatrix, hb, hbr.mpr hb, if_true, q00,
        q11, q20, q21, q22, q32]
    · have hb' : ¬ (Q 2 3 < -0.5) := fun h => hb (hbr.mp h)
      simp only [SetFromViewAndProjectionMatrix, hb, hb', if_false, q00, q11,
        q22, q30, q31, q32]

/-- C18 at concrete inputs: the perspective matrix with `P[2][3] = -0.7`
warns, the one with `P[2][3] = -1` does not, and both give the same camera. -/
theorem setFromViewAndProjectionMatrix_warnings_witness :
    (SetFromViewAndProjectionMatrix id defaultCamera defaultCamera._transform
      malformedPerspectiveMatrix 50).2 ≠ [] ∧
    (SetFromViewAndProjectionMatrix id defaultCamera defaultCamera._transform
      shiftedPerspectiveMatrix 50).2 = [] ∧
    (SetFromViewAndProjectionMatrix id defaultCamera defaultCamera._transform
      malformedPerspectiveMatrix 50).1 =
    (SetFromViewAndProjectionMatrix id defaultCamera defaultCamera._transform
      shiftedPerspectiveMatrix 50).1 := by
  have hP := setFromViewAndProjectionMatrix_warnings id defaultCamera
    defaultCamera._transform shiftedPerspectiveMatrix
    malformedPerspectiveMatrix 50
  have hQ := setFromViewAndProjectionMatrix_warnings id defaultCamera
    defaultCamera._transform malformedPerspectiveMatrix
    shiftedPerspectiveMatrix 50
  refine ⟨hQ.1.mpr (Or.inl ⟨?_, ?_⟩), ?_, hP.2.2.2.2 ?_ ?_⟩
  · norm_num [malformedPerspectiveMatrix]
  · norm_num [malformedPerspectiveMatrix, abs_lt]
  · by_contra hne
    rcases hP.1.mp hne with ⟨-, hw⟩ | ⟨hb, -⟩
    · exact hw (by norm_num [shiftedPerspectiveMatrix])
    · exact hb (by norm_num [shiftedPerspectiveMatrix])
  · intro i j hij
    fin_cases i <;> fin_cases j <;>
      simp [malformedPerspectiveMatrix, shiftedPerspectiveMatrix] at hij ⊢
  · norm_num [malformedPerspectiveMatrix, shiftedPerspectiveMatrix]

end GfBlundaCamera

namespace UsdGeomBlundaCamera

open GfBlundaCamera

variable {T K X V : Type} [LinearOrderedField K]

/-! ## Schema attribute names and projection tokens -/

/-- C19. `GetSchemaAttributeNames(false)` is the one-element list [hohoho];
`GetSchemaAttributeNames(true)` is the inherited list followed by hohoho:
every inherited name at its original position, then the local name, the
length being the inherited length plus 1; and
`_ConcatenateAttributeNames(left, right)` is `left` followed by `right`. -/
theorem getSchemaAttributeNames_spec (inheritedNames left right : List String) :
    GetSchemaAttributeNames inheritedNames false = ["hohoho"] ∧
    GetSchemaAttributeNames inheritedNames true
      = inheritedNames ++ ["hohoho"] ∧
    (GetSchemaAttributeNames inheritedNames true).length
      = inheritedNames.length + 1 ∧
    (∀ i : ℕ, i < inheritedNames.length →
      (GetSchemaAttributeNames inheritedNames true)[i]? = inheritedNames[i]?) ∧
    (GetSchemaAttributeNames inheritedNames true)[inheritedNames.length]?
      = some "hohoho" ∧
    _ConcatenateAttributeNames left right = left ++ right := by
  have hc : ∀ l r : List String, _ConcatenateAttributeNames l r = l ++ r := by
    intro l r
    simp only [_ConcatenateAttributeNames, List.nil_append]
  have ht : GetSchemaAttributeNames inheritedNames true
      = inheritedNames ++ ["hohoho"] := by
    simp only [GetSchemaAttributeNames, hc, if_true, UsdGeomTokens]
  refine ⟨?_, ht, ?_, ?_, ?_, hc left right⟩
  · simp only [GetSchemaAttributeNames, UsdGeomTokens, Bool.false_eq_true,
      if_false]
  · rw [ht, List.length_append, List.length_singleton]
  · intro i hi
    rw [ht, List.getElem?_append_left hi]
  · rw [ht, List.getElem?_append_right (le_refl _), Nat.sub_self]
    rfl

/-- C19 at a concrete input: with the inherited names a, b the full list is
a, b, hohoho and position 1 still holds b. -/
theorem getSchemaAttributeNames_spec_witness :
    1 < ["a", "b"].length ∧
    (GetSchemaAttributeNames ["a", "b"] true)[1]? = some "b" ∧
    GetSchemaAttributeNames ["a", "b"] true = ["a", "b", "hohoho"] :=
  ⟨by decide,
    (getSchemaAttributeNames_spec ["a", "b"] [] []).2.2.2.1 1 (by decide),
    (getSchemaAttributeNames_spec ["a", "b"] [] []).2.1⟩

/-- C20. `_TokenToProjection` is total with a safe default: it returns
Orthographic exactly when the token is "orthographic" and Perspective for
every other token; it warns exactly when the token is neither "orthographic"
nor "perspective", and then once; and it decodes what `_ProjectionToToken`
encodes, without a warning. -/
theorem tokenToProjection_spec (token : String) (projection : Projection) :
    ((_TokenToProjection token).1 = Projection.Orthographic ↔
      token = "orthographic") ∧
    ((_TokenToProjection token).1 = Projection.Perspective ↔
      token ≠ "orthographic") ∧
    ((_TokenToProjection token).2 ≠ [] ↔
      token ≠ "orthographic" ∧ token ≠ "perspective") ∧
    (_TokenToProjection token).2.length ≤ 1 ∧
    _TokenToProjection (_ProjectionToToken projection) = (projection, []) := by
  refine ⟨?_, ?_, ?_, ?_, ?_⟩
  · by_cases h : token = "orthographic"
    · simp [_TokenToProjection, UsdGeomTokens, h]
    · simp [_TokenToProjection, UsdGeomTokens, h]
  · by_cases h : token = "orthographic"
    · simp [_TokenToProjection, UsdGeomTokens, h]
    · simp [_TokenToProjection, UsdGeomTokens, h]
  · by_cases h : token = "orthographic"
    · simp [_TokenToProjection, UsdGeomTokens, h]
    · by_cases h' : token = "perspective"
      · simp [_TokenToProjection, UsdGeomTokens, h']
      · simp [_TokenToProjection, UsdGeomTokens, h, h']
  · simp only [_TokenToProjection]
    split_ifs <;> simp
  · cases projection <;>
      simp [_TokenToProjection, _ProjectionToToken, UsdGeomTokens]

/-! ## Import and export -/

/-- The prim `SetFromCamera` returns when `MakeMatrixXform` gives an invalid
operation: only the state of the transform authoring can have changed. -/
theorem setFromCamera_blocked (xf : UsdGeomXformable T K X)
    (attr : UsdAttributeSet T K) (self : UsdPrim T K X)
    (camera : GfBlundaCamera K) (time : T)
    (h : (xf.MakeMatrixXform self.xform).2 = false) :
    SetFromCamera xf attr self camera time
      = { self with xform := (xf.MakeMatrixXform self.xform).1 } := by
  simp only [SetFromCamera, h, Bool.false_eq_true, not_false_eq_true, if_true]

/-- C15. Export is all-or-nothing on a blocked transform: if
`MakeMatrixXform` returns an invalid transform op, `SetFromCamera` writes none
of projection, horizontalAperture, verticalAperture,
horizontalApertureOffset, verticalApertureOffset, focalLength, clippingRange,
clippingPlanes, fStop, focusDistance and hohoho: each attribute is the one
the prim had before, whatever a write would have done. -/
theorem setFromCamera_blocked_attributes (xf : UsdGeomXformable T K X)
    (attr : UsdAttributeSet T K) (self : UsdPrim T K X)
    (camera : GfBlundaCamera K) (time : T)
    (h : (xf.MakeMatrixXform self.xform).2 = false) :
    (SetFromCamera xf attr self camera time).projection = self.projection ∧
    (SetFromCamera xf attr self camera time).horizontalAperture
      = self.horizontalAperture ∧
    (SetFromCamera xf attr self camera time).verticalAperture
      = self.verticalAperture ∧
    (SetFromCamera xf attr self camera time).horizontalApertureOffset
      = self.horizontalApertureOffset ∧
    (SetFromCamera xf attr self camera time).verticalApertureOffset
      = self.verticalApertureOffset ∧
    (SetFromCamera xf attr self camera time).focalLength = self.focalLength ∧
    (SetFromCamera xf attr self camera time).clippingRange
      = self.clippingRange ∧
    (SetFromCamera xf attr self camera time).clippingPlanes
      = self.clippingPlanes ∧
    (SetFromCamera xf attr self camera time).fStop = self.fStop ∧
    (SetFromCamera xf attr self camera time).focusDistance
      = self.focusDistance ∧
    (SetFromCamera xf attr self camera time).hohoho = self.hohoho := by
  rw [setFromCamera_blocked xf attr self camera time h]
  exact ⟨rfl, rfl, rfl, rfl, rfl, rfl, rfl, rfl, rfl, rfl, rfl⟩

/-- C15 at a concrete input: on the sample prim with a blocked transform, the
export of the default camera at time 7 leaves the attributes as they were;
focalLength still reads 35 and hohoho is still missing. -/
theorem setFromCamera_blocked_attributes_witness :
    (flagXformable.MakeMatrixXform (samplePrim true).xform).2 = false ∧
    (SetFromCamera flagXformable sampleAttributeSet (samplePrim true)
      defaultCamera 7).focalLength = (samplePrim true).focalLength ∧
    (SetFromCamera flagXformable sampleAttributeSet (samplePrim true)
      defaultCamera 7).hohoho = (samplePrim true).hohoho :=
  ⟨rfl,
    (setFromCamera_blocked_attributes flagXformable sampleAttributeSet
      (samplePrim true) defaultCamera 7 rfl).2.2.2.2.2.1,
    (setFromCamera_blocked_attributes flagXformable sampleAttributeSet
      (samplePrim true) defaultCamera 7 rfl).2.2.2.2.2.2.2.2.2.2⟩

/-- C16, the claim refuted at a concrete input: on the sample prim with a
blocked transform, the export of the default camera (focal length 50) at time
7 does not write the focal length, which is a defined attribute and still
reads 35. -/
theorem setFromCamera_blocked_not_partial :
    (flagXformable.MakeMatrixXform (samplePrim true).xform).2 = false ∧
    (defaultCamera : GfBlundaCamera ℚ)._focalLength = 50 ∧
    (samplePrim true).focalLength.defined = true ∧
    (SetFromCamera flagXformable sampleAttributeSet (samplePrim true)
      defaultCamera 7).focalLength.value 7 = some 35 ∧
    (SetFromCamera flagXformable sampleAttributeSet (samplePrim true)
      defaultCamera 7).focalLength.value 7
        ≠ some (defaultCamera : GfBlundaCamera ℚ)._focalLength := by
  rw [setFromCamera_blocked flagXformable sampleAttributeSet (samplePrim true)
    defaultCamera 7 rfl]
  refine ⟨rfl, rfl, rfl, rfl, ?_⟩
  simp only [samplePrim, defaultCamera]
  norm_num

/-- C16 as amended. When writing the transform fails because a stronger
opinion governs it (`MakeMatrixXform` returns an invalid transform op),
`SetFromCamera` skips the transform write and every other write as well: the
prim returned is the one before with the transform-authoring state
`MakeMatrixXform` left, so the transform value is not set and projection,
both apertures, both aperture offsets, focalLength, clippingRange,
clippingPlanes, fStop, focusDistance and hohoho keep their previous values;
the result depends neither on the camera nor on what a write would do. -/
theorem setFromCamera_all_or_nothing (xf : UsdGeomXformable T K X)
    (attr attr2 : UsdAttributeSet T K) (self : UsdPrim T K X)
    (camera camera2 : GfBlundaCamera K) (time : T)
    (h : (xf.MakeMatrixXform self.xform).2 = false) :
    SetFromCamera xf attr self camera time
      = { self with xform := (xf.MakeMatrixXform self.xform).1 } ∧
    SetFromCamera xf attr2 self camera2 time
      = SetFromCamera xf attr self camera time := by
  have h1 := setFromCamera_blocked xf attr self camera time h
  have h2 := setFromCamera_blocked xf attr2 self camera2 time h
  exact ⟨h1, h2.trans h1.symm⟩

/-- C16 as amended, at a concrete input: with a blocked transform the export
of the default camera at time 7 returns the sample prim as it was, and the
export of a camera with focal length 85 returns the same prim. -/
theorem setFromCamera_all_or_nothing_witness :
    (flagXformable.MakeMatrixXform (samplePrim true).xform).2 = false ∧
    SetFromCamera flagXformable sampleAttributeSet (samplePrim true)
      defaultCamera 7 = samplePrim true ∧
    SetFromCamera flagXformable sampleAttributeSet (samplePrim true)
      (SetFocalLength defaultCamera 85) 7
      = SetFromCamera flagXformable sampleAttributeSet (samplePrim true)
        defaultCamera 7 :=
  ⟨rfl,
    (setFromCamera_all_or_nothing flagXformable sampleAttributeSet
      sampleAttributeSet (samplePrim true) defaultCamera
      (SetFocalLength defaultCamera 85) 7 rfl).1,
    (setFromCamera_all_or_nothing flagXformable sampleAttributeSet
      sampleAttributeSet (samplePrim true) defaultCamera
      (SetFocalLength defaultCamera 85) 7 rfl).2⟩

/-- What `_GetValue` returns: the value read, or `none` when the attribute is
missing or unreadable at the time. -/
theorem getValue_fst {S W : Type} (primPath : String)
    (attr : UsdAttribute S W) (name : String) (time : S) :
    (_GetValue primPath attr name time).1
      = if attr.defined = true then attr.value time else none := by
  unfold _GetValue
  by_cases hd : attr.defined = true
  · cases hv : attr.value time <;> simp [hd, hv]
  · simp [hd]

/-- C17. Import tolerates missing or unreadable attributes: `GetCamera` is
total; the ten fields transform, both apertures, both aperture offsets,
focalLength, clippingRange, clippingPlanes, fStop and focusDistance are those
of the base `UsdGeomCamera::GetCamera` result; when the hohoho attribute is
missing or unreadable at the time the returned hohoho is that of a
default-constructed camera, and when it is readable it is the value read; when
the projection attribute is missing or unreadable the returned projection is
that of a default-constructed camera, and when it is readable it is
`_TokenToProjection` of the token read. -/
theorem getCamera_tolerant (baseGetCamera : UsdPrim T K X → T → GfCamera K)
    (self : UsdPrim T K X) (time : T) :
    (GetCamera baseGetCamera self time).1._transform
      = (baseGetCamera self time).GetTransform ∧
    (GetCamera baseGetCamera self time).1._horizontalAperture
      = (baseGetCamera self time).GetHorizontalAperture ∧
    (GetCamera baseGetCamera self time).1._verticalAperture
      = (baseGetCamera self time).GetVerticalAperture ∧
    (GetCamera baseGetCamera self time).1._horizontalApertureOffset
      = (baseGetCamera self time).GetHorizontalApertureOffset ∧
    (GetCamera baseGetCamera self time).1._verticalApertureOffset
      = (baseGetCamera self time).GetVerticalApertureOffset ∧
    (GetCamera baseGetCamera self time).1._focalLength
      = (baseGetCamera self time).GetFocalLength ∧
    (GetCamera baseGetCamera self time).1._clippingRange
      = (baseGetCamera self time).GetClippingRange ∧
    (GetCamera baseGetCamera self time).1._clippingPlanes
      = (baseGetCamera self time).GetClippingPlanes ∧
    (GetCamera baseGetCamera self time).1._fStop
      = (baseGetCamera self time).GetFStop ∧
    (GetCamera baseGetCamera self time).1._focusDistance
      = (baseGetCamera self time).GetFocusDistance ∧
    (self.hohoho.defined = false ∨ self.hohoho.value time = none →
      (GetCamera baseGetCamera self time).1._hohoho
        = (defaultCamera : GfBlundaCamera K)._hohoho) ∧
    (∀ value : K, self.hohoho.defined = true →
      self.hohoho.value time = some value →
      (GetCamera baseGetCamera self time).1._hohoho = value) ∧
    (self.projection.defined = false ∨ self.projection.value time = none →
      (GetCamera baseGetCamera self time).1._projection
        = (defaultCamera : GfBlundaCamera K)._projection) ∧
    (∀ token : String, self.projection.defined = true →
      self.projection.value time = some token →
      (GetCamera baseGetCamera self time).1._projection
        = (_TokenToProjection token).1) := by
  have hp := getValue_fst self.path self.projection UsdGeomTokens.projection
    time
  have hh := getValue_fst self.path self.hohoho UsdGeomTokens.hohoho time
  have fields : ∀ (p : Option String) (h : Option K),
      (_GetValue self.path self.projection UsdGeomTokens.projection time).1
        = p →
      (_GetValue self.path self.hohoho UsdGeomTokens.hohoho time).1 = h →
      (GetCamera baseGetCamera self time).1 =
        { (defaultCamera : GfBlundaCamera K) with
          _transform := (baseGetCamera self time).GetTransform
          _horizontalAperture := (baseGetCamera self time).GetHorizontalAperture
          _verticalAperture := (baseGetCamera self time).GetVerticalAperture
          _horizontalApertureOffset :=
            (baseGetCamera self time).GetHorizontalApertureOffset
          _verticalApertureOffset :=
            (baseGetCamera self time).GetVerticalApertureOffset
          _focalLength := (baseGetCamera self time).GetFocalLength
          _clippingRange := (baseGetCamera self time).GetClippingRange
          _clippingPlanes := (baseGetCamera self time).GetClippingPlanes
          _fStop := (baseGetCamera self time).GetFStop
          _focusDistance := (baseGetCamera self time).GetFocusDistance
          _projection := match p with
            | some token => (_TokenToProjection token).1
            | none => (defaultCamera : GfBlundaCamera K)._projection
          _hohoho := match h with
            | some value => value
            | none => (defaultCamera : GfBlundaCamera K)._hohoho } := by
    intro p h ep eh
    unfold GetCamera
    simp only [ep, eh]
    cases p <;> cases h <;> rfl
  have hcam := fields _ _ rfl rfl
  rw [hp, hh] at hcam
  refine ⟨?_, ?_, ?_, ?_, ?_, ?_, ?_, ?_, ?_, ?_, ?_, ?_, ?_, ?_⟩
  any_goals (rw [hcam])
  · rintro (hd | hv)
    · simp [hd]
    · simp [hv]
  · intro value hd hv
    simp [hd, hv]
  · rintro (hd | hv)
    · simp [hd]
    · simp [hv]
  · intro token hd hv
    simp [hd, hv]

/-- C17 at a concrete input: on the sample prim, whose hohoho attribute is
missing and whose projection reads "orthographic", the camera read at time 7
has the default hohoho and the Orthographic projection, and takes its focal
length from the base camera. -/
theorem getCamera_tolerant_witness :
    (samplePrim true).hohoho.defined = false ∧
    (GetCamera (fun _ _ => baseCamera defaultCamera) (samplePrim true)
      7).1._hohoho = (defaultCamera : GfBlundaCamera ℚ)._hohoho ∧
    (GetCamera (fun _ _ => baseCamera defaultCamera) (samplePrim true)
      7).1._projection = Projection.Orthographic ∧
    (GetCamera (fun _ _ => baseCamera defaultCamera) (samplePrim true)
      7).1._focalLength = 50 := by
  have h := getCamera_tolerant (fun _ _ => baseCamera defaultCamera)
    (samplePrim true) 7
  obtain ⟨-, -, -, -, -, hf, -, -, -, -, hh, -, -, hp⟩ := h
  refine ⟨rfl, hh (Or.inl rfl), ?_, ?_⟩
  · rw [hp "orthographic" rfl rfl]
    simp [_TokenToProjection, UsdGeomTokens]
  · rw [hf]
    rfl

end UsdGeomBlundaCamera

namespace GfBlundaCamera

variable {K : Type} [LinearOrderedField K]

/-! ## Relations between the setters and the getters -/

/-- The frustum window after `SetFromViewAndProjectionMatrix` with a
perspective-branch matrix and a positive focal length: the focal length
cancels, leaving the entries of the matrix. -/
theorem getFrustum_window_of_matrix
    (GetInverse : GfMatrix4d K → GfMatrix4d K) (self : GfBlundaCamera K)
    (viewMatrix P : GfMatrix4d K) (focalLength : K)
    (hb : P 2 3 < -0.5) (h00 : P 0 0 ≠ 0) (h11 : P 1 1 ≠ 0)
    (hf : 0 < focalLength) :
    (GetFrustum (SetFromViewAndProjectionMatrix GetInverse self viewMatrix P
      focalLength).1).window
      = GfRange2d.mk
        (GfVec2d.mk ((P 2 0 - 1) / P 0 0) ((P 2 1 - 1) / P 1 1))
        (GfVec2d.mk ((P 2 0 + 1) / P 0 0) ((P 2 1 + 1) / P 1 1)) := by
  have hu : (0 : K) < 0.1 := by norm_num
  have hm : 0 < focalLength * (0.1 : K) := mul_pos hf hu
  have hr : (1.0 : K) / (focalLength * 0.1) > 0 := by
    apply div_pos _ hm
    norm_num
  have hc : Projection.Perspective ≠ Projection.Orthographic ∧
      focalLength ≠ 0 := ⟨by decide, hf.ne'⟩
  simp only [SetFromViewAndProjectionMatrix, hb, if_true, GetFrustum, hc,
    not_false_eq_true, and_self, GfRange2d.div, GfRange2d.mul, GfRange2d.add,
    APERTURE_UNIT, FOCAL_LENGTH_UNIT, hu, hr, gt_iff_lt, ne_eq]
  have hf0 : focalLength ≠ 0 := hf.ne'
  congr 1 <;> congr 1 <;> field_simp <;> ring

/-- C21. The frustum is independent of the focal length passed to
`SetFromViewAndProjectionMatrix`: for a perspective-branch matrix `P`
(`P[2][3] < -0.5`) with `P[0][0]` and `P[1][1]` not 0 and two focal lengths
`f1 > 0` and `f2 > 0`, the window of `GetFrustum` is the same after both
calls: x from (P[2][0] - 1) / P[0][0] to (P[2][0] + 1) / P[0][0] and y from
(P[2][1] - 1) / P[1][1] to (P[2][1] + 1) / P[1][1]. -/
theorem getFrustum_focalLength_independent
    (GetInverse : GfMatrix4d K → GfMatrix4d K) (self : GfBlundaCamera K)
    (viewMatrix P : GfMatrix4d K) (f1 f2 : K)
    (hb : P 2 3 < -0.5) (h00 : P 0 0 ≠ 0) (h11 : P 1 1 ≠ 0)
    (hf1 : 0 < f1) (hf2 : 0 < f2) :
    (GetFrustum (SetFromViewAndProjectionMatrix GetInverse self viewMatrix P
      f1).1).window
      = (GetFrustum (SetFromViewAndProjectionMatrix GetInverse self viewMatrix
        P f2).1).window ∧
    (GetFrustum (SetFromViewAndProjectionMatrix GetInverse self viewMatrix P
      f1).1).window
      = GfRange2d.mk
        (GfVec2d.mk ((P 2 0 - 1) / P 0 0) ((P 2 1 - 1) / P 1 1))
        (GfVec2d.mk ((P 2 0 + 1) / P 0 0) ((P 2 1 + 1) / P 1 1)) := by
  have w1 := getFrustum_window_of_matrix GetInverse self viewMatrix P f1 hb
    h00 h11 hf1
  have w2 := getFrustum_window_of_matrix GetInverse self viewMatrix P f2 hb
    h00 h11 hf2
  exact ⟨w1.trans w2.symm, w1⟩

/-- C21 at a concrete input: with the perspective matrix with lens shift
(P[0][0] = 2, P[1][1] = 4, P[2][0] = 1/2, P[2][1] = 1/4) the focal lengths 50
and 35 give the same window, x from -1/4 to 3/4 and y from -3/16 to 5/16. -/
theorem getFrustum_focalLength_independent_witness :
    shiftedPerspectiveMatrix 2 3 < -0.5 ∧
    (GetFrustum (SetFromViewAndProjectionMatrix id defaultCamera
      defaultCamera._transform shiftedPerspectiveMatrix 50).1).window
      = (GetFrustum (SetFromViewAndProjectionMatrix id defaultCamera
        defaultCamera._transform shiftedPerspectiveMatrix 35).1).window ∧
    (GetFrustum (SetFromViewAndProjectionMatrix id defaultCamera
      defaultCamera._transform shiftedPerspectiveMatrix 50).1).window
      = GfRange2d.mk (GfVec2d.mk (-1 / 4) (-3 / 16))
        (GfVec2d.mk (3 / 4) (5 / 16)) := by
  have hb : shiftedPerspectiveMatrix 2 3 < -0.5 := by
    norm_num [shiftedPerspectiveMatrix]
  have h := getFrustum_focalLength_independent id defaultCamera
    defaultCamera._transform shiftedPerspectiveMatrix 50 35 hb
    (by norm_num [shiftedPerspectiveMatrix])
    (by norm_num [shiftedPerspectiveMatrix]) (by norm_num) (by norm_num)
  refine ⟨hb, h.1, ?_⟩
  rw [h.2]
  norm_num [shiftedPerspectiveMatrix]

/-- C22. Frustum and field of view agree, in real arithmetic: for a
perspective camera with focalLength > 0 and zero aperture offsets, the
maximum x of the `GetFrustum` window is the tangent of half of
`GetFieldOfView(FOVHorizontal)` converted to radians, the maximum y is the
tangent of half of `GetFieldOfView(FOVVertical)` converted to radians, and the
window is symmetric about the origin. The conversion constant `p` is any
non-zero value, so pi and the binary64 `M_PI`. -/
theorem getFrustum_fieldOfView_agree (p : ℝ) (hp : p ≠ 0)
    (self : GfBlundaCamera ℝ)
    (hpersp : self._projection = Projection.Perspective)
    (hf : 0 < self._focalLength)
    (hho : self._horizontalApertureOffset = 0)
    (hvo : self._verticalApertureOffset = 0) :
    (GetFrustum self).window.max.x
      = Real.tan (0.5 * GfDegreesToRadians (Libm.mk Real.tan Real.arctan p)
          (GetFieldOfView (Libm.mk Real.tan Real.arctan p) self
            FOVDirection.FOVHorizontal)) ∧
    (GetFrustum self).window.max.y
      = Real.tan (0.5 * GfDegreesToRadians (Libm.mk Real.tan Real.arctan p)
          (GetFieldOfView (Libm.mk Real.tan Real.arctan p) self
            FOVDirection.FOVVertical)) ∧
    (GetFrustum self).window.min.x = -(GetFrustum self).window.max.x ∧
    (GetFrustum self).window.min.y = -(GetFrustum self).window.max.y := by
  have hu : (0 : ℝ) < 0.1 := by norm_num
  have hm : 0 < self._focalLength * (0.1 : ℝ) := mul_pos hf hu
  have hr : (1.0 : ℝ) / (self._focalLength * 0.1) > 0 := by
    apply div_pos _ hm
    norm_num
  have hc : self._projection ≠ Projection.Orthographic ∧
      self._focalLength ≠ 0 := ⟨by rw [hpersp]; decide, hf.ne'⟩
  have hf0 : self._focalLength ≠ 0 := hf.ne'
  have hangle : ∀ a : ℝ,
      0.5 * (2 * Real.arctan a * (180 / p) * (p / 180)) = Real.arctan a := by
    intro a
    field_simp
    ring
  simp only [GetFrustum, hc, not_false_eq_true, and_self, if_true,
    GfRange2d.div, GfRange2d.mul, GfRange2d.add, APERTURE_UNIT,
    FOCAL_LENGTH_UNIT, hu, hr, gt_iff_lt, ne_eq, hho, hvo, GetFieldOfView,
    GfDegreesToRadians, GfRadiansToDegrees, hangle, Real.tan_arctan,
    if_false, reduceCtorEq, add_zero]
  refine ⟨?_, ?_, ?_, ?_⟩ <;> field_simp <;> ring

/-- C22 at a concrete input: for the default camera (apertures 20.955 and
15.2908, focal length 50, zero offsets) with pi as the constant, the tangent
of half the horizontal field of view is the half-width 0.20955 of the
window. -/
theorem getFrustum_fieldOfView_agree_witness :
    Real.pi ≠ 0 ∧
    (0 : ℝ) < (defaultCamera : GfBlundaCamera ℝ)._focalLength ∧
    (GetFrustum (defaultCamera : GfBlundaCamera ℝ)).window.max.x
      = Real.tan (0.5 * GfDegreesToRadians
          (Libm.mk Real.tan Real.arctan Real.pi)
          (GetFieldOfView (Libm.mk Real.tan Real.arctan Real.pi)
            defaultCamera FOVDirection.FOVHorizontal)) ∧
    Real.tan (0.5 * GfDegreesToRadians
        (Libm.mk Real.tan Real.arctan Real.pi)
        (GetFieldOfView (Libm.mk Real.tan Real.arctan Real.pi)
          defaultCamera FOVDirection.FOVHorizontal)) = 0.20955 := by
  have hf : (0 : ℝ) < (defaultCamera : GfBlundaCamera ℝ)._focalLength := by
    norm_num [defaultCamera]
  have h := getFrustum_fieldOfView_agree Real.pi Real.pi_ne_zero
    defaultCamera rfl hf rfl rfl
  refine ⟨Real.pi_ne_zero, hf, h.1, ?_⟩
  rw [← h.1]
  norm_num [GetFrustum, defaultCamera, GfRange2d.div, GfRange2d.mul,
    GfRange2d.add, DEFAULT_HORIZONTAL_APERTURE, APERTURE_UNIT,
    FOCAL_LENGTH_UNIT]
  rw [if_neg (by decide)]

/-- C23. `SetPerspectiveFromAspectRatioAndFieldOfView` achieves the requested
aspect ratio: for a horizontal aperture that is not 0, every field of view and
either direction, `GetAspectRatio()` afterwards returns the aspect ratio given
when that is not 0, and returns 1 when the aspect ratio given is 0. -/
theorem setPerspective_aspectRatio (m : Libm K) (self : GfBlundaCamera K)
    (aspectRatio fieldOfView : K) (direction : FOVDirection)
    (horizontalAperture : K) (hh : horizontalAperture ≠ 0) :
    (aspectRatio ≠ 0 →
      GetAspectRatio (SetPerspectiveFromAspectRatioAndFieldOfView m self
        aspectRatio fieldOfView direction horizontalAperture) = aspectRatio) ∧
    (aspectRatio = 0 →
      GetAspectRatio (SetPerspectiveFromAspectRatioAndFieldOfView m self
        aspectRatio fieldOfView direction horizontalAperture) = 1) := by
  have fields : ∀ a : K,
      (SetPerspectiveFromAspectRatioAndFieldOfView m self a fieldOfView
        direction horizontalAperture)._horizontalAperture
          = horizontalAperture ∧
      (SetPerspectiveFromAspectRatioAndFieldOfView m self a fieldOfView
        direction horizontalAperture)._verticalAperture
          = horizontalAperture / (if a ≠ 0 then a else 1) := by
    intro a
    simp only [SetPerspectiveFromAspectRatioAndFieldOfView]
    refine ⟨?_, ?_⟩ <;> split_ifs <;> rfl
  refine ⟨fun ha => ?_, fun ha => ?_⟩
  · have hv : horizontalAperture / aspectRatio ≠ 0 := div_ne_zero hh ha
    simp only [GetAspectRatio, (fields aspectRatio).1, (fields aspectRatio).2,
      ha, ne_eq, not_false_eq_true, if_true, hv, if_false]
    field_simp
  · subst ha
    simp only [GetAspectRatio, (fields 0).1, (fields 0).2, ne_eq,
      not_true_eq_false, if_false, div_one, hh]
    exact div_self hh

/-- C23 at a concrete input: aspect ratio 1.78, field of view 45 degrees in
the vertical direction and horizontal aperture 20.955 give back 1.78. -/
theorem setPerspective_aspectRatio_witness :
    (20.955 : ℝ) ≠ 0 ∧ (1.78 : ℝ) ≠ 0 ∧
    GetAspectRatio (SetPerspectiveFromAspectRatioAndFieldOfView
      (Libm.mk Real.tan Real.arctan Real.pi) defaultCamera 1.78 45
      FOVDirection.FOVVertical 20.955) = (1.78 : ℝ) :=
  ⟨by norm_num, by norm_num,
    (setPerspective_aspectRatio (Libm.mk Real.tan Real.arctan Real.pi)
      defaultCamera 1.78 45 FOVDirection.FOVVertical 20.955
      (by norm_num)).1 (by norm_num)⟩

/-- C24. `SetOrthographicFromAspectRatioAndSize` achieves the requested aspect
ratio: for a size that is not 0, `GetAspectRatio()` afterwards returns the
aspect ratio given when that is positive, in either direction; for
FOVHorizontal with an aspect ratio that is not positive it returns 1. -/
theorem setOrthographic_aspectRatio (self : GfBlundaCamera K)
    (aspectRatio orthographicSize : K) (direction : FOVDirection)
    (hs : orthographicSize ≠ 0) :
    (0 < aspectRatio →
      GetAspectRatio (SetOrthographicFromAspectRatioAndSize self aspectRatio
        orthographicSize direction) = aspectRatio) ∧
    (aspectRatio ≤ 0 →
      GetAspectRatio (SetOrthographicFromAspectRatioAndSize self aspectRatio
        orthographicSize FOVDirection.FOVHorizontal) = 1) := by
  have hu : (0.1 : K) ≠ 0 := by norm_num
  have hw : orthographicSize / (0.1 : K) ≠ 0 := div_ne_zero hs hu
  refine ⟨fun ha => ?_, fun ha => ?_⟩
  · have ha0 : aspectRatio ≠ 0 := ha.ne'
    cases direction
    · have hv : orthographicSize / (0.1 : K) / aspectRatio ≠ 0 :=
        div_ne_zero hw ha0
      simp only [GetAspectRatio, SetOrthographicFromAspectRatioAndSize,
        APERTURE_UNIT, if_true, ha, gt_iff_lt, hv, if_false]
      field_simp
      ring
    · simp only [GetAspectRatio, SetOrthographicFromAspectRatioAndSize,
        APERTURE_UNIT, reduceCtorEq, if_false, hw]
      field_simp
  · have hna : ¬ (aspectRatio > 0) := not_lt.mpr ha
    simp only [GetAspectRatio, SetOrthographicFromAspectRatioAndSize,
      APERTURE_UNIT, if_true, hna, if_false, hw]
    exact div_self hw

/-- C24 at concrete inputs: aspect ratio 1.78 and size 10 in the vertical
direction give back 1.78; aspect ratio -2 and size 10 in the horizontal
direction give 1. -/
theorem setOrthographic_aspectRatio_witness :
    (10 : ℚ) ≠ 0 ∧ (0 : ℚ) < 1.78 ∧ (-2 : ℚ) ≤ 0 ∧
    GetAspectRatio (SetOrthographicFromAspectRatioAndSize
      (defaultCamera : GfBlundaCamera ℚ) 1.78 10 FOVDirection.FOVVertical)
        = 1.78 ∧
    GetAspectRatio (SetOrthographicFromAspectRatioAndSize
      (defaultCamera : GfBlundaCamera ℚ) (-2) 10 FOVDirection.FOVHorizontal)
        = 1 :=
  ⟨by norm_num, by norm_num, by norm_num,
    (setOrthographic_aspectRatio defaultCamera 1.78 10
      FOVDirection.FOVVertical (by norm_num)).1 (by norm_num),
    (setOrthographic_aspectRatio defaultCamera (-2) 10
      FOVDirection.FOVHorizontal (by norm_num)).2 (by norm_num)⟩

end GfBlundaCamera

end Pxr
